import Mathlib

/-!
# Verification of the Pluton static analyzer core

This file gives a shallow embedding, in Lean 4, of the detection core of the
Pluton static analyzer for Solana/Anchor programs (`src/visitor.rs`,
`src/utils.rs`, `src/lib.rs`), and proves properties of that embedding.

Modelling conventions:

* The syn syntax tree is embedded as a mutual inductive family covering the
  node shapes the visitor inspects (paths, field accesses, method calls,
  calls, binary operations, integer literals, casts, `if` expressions,
  blocks, statements, functions, structs, enums, modules).  Attribute and
  type tokens, which the visitor only ever inspects through
  `to_token_stream().to_string()`, are carried as their rendered strings.
* The visitor's mutable fields become an explicit state record `St` threaded
  through the visit functions.  The run-wide `has_overflow_checks` flag is
  never mutated by the Rust code, so it is passed as a plain parameter `hoc`.
* Source-position resolution (`update_location_from_span`, a best-effort
  snippet search declared approximate by design) is not modelled; findings
  are modelled by their severity and description, the fields every claim is
  about.  The remediation `suggestion` strings are likewise omitted.
* `Vec::push` appends at the end, modelled by `++ [x]`.
-/

namespace Pluton

/-- Character-list prefix test, mirroring byte-wise prefix comparison. -/
def charsHasPre : List Char → List Char → Bool
  | [], _ => true
  | _ :: _, [] => false
  | p :: ps, c :: cs => p == c && charsHasPre ps cs

/-- Character-list substring test: does `s` contain `pat` as a contiguous
sub-list?  Mirrors Rust `str::contains` (a case-sensitive substring test). -/
def charsContains : List Char → List Char → Bool
  | s, pat =>
    if charsHasPre pat s then true
    else
      match s with
      | [] => false
      | _ :: cs => charsContains cs pat

/-- Rust `String::contains`: case-sensitive substring containment. -/
def scontains (s pat : String) : Bool :=
  charsContains s.data pat.data

/-- Rust `str::ends_with`. -/
def sendsWith (s pat : String) : Bool :=
  charsHasPre pat.data.reverse s.data.reverse

theorem charsHasPre_iff (pat s : List Char) :
    charsHasPre pat s = true ↔ ∃ t, s = pat ++ t := by
  induction pat generalizing s with
  | nil => simp [charsHasPre]
  | cons p ps ih =>
    cases s with
    | nil => simp [charsHasPre]
    | cons c cs =>
      simp only [charsHasPre, Bool.and_eq_true, beq_iff_eq, ih, List.cons_append,
        List.cons.injEq]
      constructor
      · rintro ⟨rfl, t, rfl⟩
        exact ⟨t, rfl, rfl⟩
      · rintro ⟨t, rfl, rfl⟩
        exact ⟨rfl, t, rfl⟩

theorem charsContains_iff (s pat : List Char) :
    charsContains s pat = true ↔ ∃ pre suf, s = pre ++ pat ++ suf := by
  induction s with
  | nil =>
    rw [charsContains]
    constructor
    · intro h
      split at h
      · rename_i hp
        rw [charsHasPre_iff] at hp
        obtain ⟨t, ht⟩ := hp
        exact ⟨[], t, by simpa using ht⟩
      · simp at h
    · rintro ⟨pre, suf, h⟩
      have h' : pre ++ pat ++ suf = [] := h.symm
      rcases List.append_eq_nil.mp h' with ⟨h1, -⟩
      rcases List.append_eq_nil.mp h1 with ⟨-, rfl⟩
      simp [charsHasPre]
  | cons c cs ih =>
    rw [charsContains]
    constructor
    · intro h
      split at h
      · rename_i hp
        rw [charsHasPre_iff] at hp
        obtain ⟨t, ht⟩ := hp
        exact ⟨[], t, by simpa using ht⟩
      · rw [ih] at h
        obtain ⟨pre, suf, hpre⟩ := h
        exact ⟨c :: pre, suf, by simp [hpre]⟩
    · rintro ⟨pre, suf, h⟩
      split
      · rfl
      · rename_i hp
        cases pre with
        | nil =>
          exfalso
          simp only [List.nil_append] at h
          have : charsHasPre pat (c :: cs) = true := by
            rw [charsHasPre_iff]
            exact ⟨suf, h⟩
          simp [this] at hp
        | cons p ps =>
          rw [ih]
          simp only [List.cons_append, List.cons.injEq] at h
          exact ⟨ps, suf, h.2⟩

theorem scontains_iff (s pat : String) :
    scontains s pat = true ↔ ∃ pre suf, s.data = pre ++ pat.data ++ suf := by
  unfold scontains
  exact charsContains_iff s.data pat.data

/-- Substring containment is transitive through sub-patterns: if `s` contains
`pat` and `pat` contains `sub`, then `s` contains `sub`. -/
theorem scontains_trans {s pat sub : String}
    (h1 : scontains s pat = true) (h2 : scontains pat sub = true) :
    scontains s sub = true := by
  rw [scontains_iff] at h1 h2 ⊢
  obtain ⟨a, b, hab⟩ := h1
  obtain ⟨c, d, hcd⟩ := h2
  exact ⟨a ++ c, d ++ b, by simp [hab, hcd]⟩

-- MARK: Finding model (src/lib.rs)

/-- `Severity` from `src/lib.rs`. -/
inductive Severity where
  | Critical
  | High
  | Medium
  | Low
  deriving DecidableEq, Repr, BEq

/-- A vulnerability finding; the `location` and `suggestion` fields of the
Rust struct are not modelled (no claim concerns them). -/
structure Vuln where
  severity : Severity
  description : String
  deriving DecidableEq, Repr, BEq

/-- A warning finding (description only; location/suggestion not modelled). -/
structure Warn where
  description : String
  deriving DecidableEq, Repr, BEq

/-- An informational finding (description only; location not modelled). -/
structure Info where
  description : String
  deriving DecidableEq, Repr, BEq

-- MARK: Syntax-tree embedding (the fragment of syn the visitor inspects)

mutual
/-- Expressions.  `path` carries the rendered path text; `call` carries the
callee expression (the visitor renders it to a string with
`to_token_stream`); attribute/type positions carry rendered token text. -/
inductive Expr where
  | path (text : String)
  | field (base : Expr) (member : String)
  | methodCall (receiver : Expr) (method : String) (args : ExprList)
  | call (func : Expr) (args : ExprList)
  | binary (op : BOp) (left : Expr) (right : Expr)
  | litInt (value : Nat)
  | cast (inner : Expr) (targetType : String)
  | ifE (cond : Expr) (thenBranch : StmtList) (elseBranch : OptExpr)
  | blockE (stmts : StmtList)

inductive ExprList where
  | nil
  | cons (e : Expr) (es : ExprList)

inductive OptExpr where
  | none
  | some (e : Expr)

/-- Binary operators; `other` carries the rendered operator token for
operators the visitor does not treat specially. -/
inductive BOp where
  | add
  | sub
  | mul
  | eq
  | other (tok : String)

/-- Statements: expression statements, `let` bindings (pattern text plus
optional initializer), and nested items. -/
inductive Stmt where
  | exprS (e : Expr)
  | localS (pat : String) (init : OptExpr)
  | itemS (i : Item)

inductive StmtList where
  | nil
  | cons (s : Stmt) (ss : StmtList)

/-- Items: functions (name, typed-parameter identifier names, body),
structs, enums (name), and modules. -/
inductive Item where
  | fnI (name : String) (params : List String) (body : StmtList)
  | structI (sd : StructDef)
  | enumI (name : String)
  | modI (items : ItemList)

inductive ItemList where
  | nil
  | cons (i : Item) (is : ItemList)

/-- An attribute, inspected by the visitor only through
`attr.path().is_ident("account")` and `attr.to_token_stream().to_string()`. -/
inductive Attr where
  | mk (isAccountPath : Bool) (text : String)

/-- A struct field: optional identifier, rendered type tokens, attributes. -/
inductive FieldDef where
  | mk (ident : Option String) (ty : String) (attrs : List Attr)

/-- A struct: name, attributes, fields. -/
inductive StructDef where
  | mk (name : String) (attrs : List Attr) (fields : List FieldDef)
end

def Attr.isAccountPath : Attr → Bool
  | .mk b _ => b

def Attr.text : Attr → String
  | .mk _ t => t

def FieldDef.ident : FieldDef → Option String
  | .mk i _ _ => i

def FieldDef.ty : FieldDef → String
  | .mk _ t _ => t

def FieldDef.attrs : FieldDef → List Attr
  | .mk _ _ a => a

def StructDef.name : StructDef → String
  | .mk n _ _ => n

def StructDef.attrs : StructDef → List Attr
  | .mk _ a _ => a

def StructDef.fields : StructDef → List FieldDef
  | .mk _ _ f => f

/-- Rendered token of a binary operator. -/
def BOp.tok : BOp → String
  | .add => "+"
  | .sub => "-"
  | .mul => "*"
  | .eq => "=="
  | .other t => t

mutual
/-- Rendering of an expression to token text, mirroring
`to_token_stream().to_string()` (tokens separated by spaces). -/
def renderExpr : Expr → String
  | .path t => t
  | .field b m => renderExpr b ++ " . " ++ m
  | .methodCall r m args => renderExpr r ++ " . " ++ m ++ " (" ++ renderArgs args ++ ")"
  | .call f args => renderExpr f ++ " (" ++ renderArgs args ++ ")"
  | .binary op l r => renderExpr l ++ " " ++ op.tok ++ " " ++ renderExpr r
  | .litInt v => toString v
  | .cast e ty => renderExpr e ++ " as " ++ ty
  | .ifE c t e =>
      "if " ++ renderExpr c ++ " \x7b " ++ renderStmts t ++ " \x7d" ++ renderElse e
  | .blockE b => "\x7b " ++ renderStmts b ++ " \x7d"

/-- Comma-separated rendering of an argument list
(`args.to_token_stream().to_string()`). -/
def renderArgs : ExprList → String
  | .nil => ""
  | .cons e .nil => renderExpr e
  | .cons e es => renderExpr e ++ " , " ++ renderArgs es

def renderElse : OptExpr → String
  | .none => ""
  | .some e => " else " ++ renderExpr e

def renderStmt : Stmt → String
  | .exprS e => renderExpr e
  | .localS pat i =>
      "let " ++ pat ++ (match i with
        | .none => ""
        | .some e => " = " ++ renderExpr e)
  | .itemS i => renderItem i

def renderStmts : StmtList → String
  | .nil => ""
  | .cons s .nil => renderStmt s
  | .cons s ss => renderStmt s ++ " ; " ++ renderStmts ss

def renderItem : Item → String
  | .fnI name params body =>
      "fn " ++ name ++ " (" ++ String.intercalate " , " params ++ ") \x7b "
        ++ renderStmts body ++ " \x7d"
  | .structI sd => "struct " ++ sd.name
  | .enumI name => "enum " ++ name
  | .modI items => "mod " ++ renderItems items

def renderItems : ItemList → String
  | .nil => ""
  | .cons i is => renderItem i ++ " " ++ renderItems is
end

/-- A block rendered with its braces, as `block.to_token_stream()` prints. -/
def renderStmtsBraced (b : StmtList) : String :=
  "\x7b " ++ renderStmts b ++ " \x7d"

-- MARK: Visitor state (the mutable fields of `AnchorVisitor`)

/-- The transient, per-function mutable fields of `AnchorVisitor`, together
with the shared `AnalysisResult` sink (`vulnerabilities`, `warnings`,
`info`).  `has_overflow_checks` is never mutated by the Rust code, so it is
passed to the visit functions as a plain parameter `hoc` instead.  The
position fields and the visitor's unused private result vectors and unused
`has_initialization_check` flag are not modelled. -/
structure St where
  has_remaining_accounts_access : Bool := false
  has_remaining_accounts_validation : Bool := false
  current_function_is_init : Bool := false
  cpi_performed : Bool := false
  accessed_accounts : List String := []
  non_canonical_bump_detected : Bool := false
  current_function_has_bump_param : Bool := false
  vulnerabilities : List Vuln := []
  warnings : List Warn := []
  info : List Info := []
  deriving DecidableEq, Repr

/-- The state of a fresh visitor over an empty `AnalysisResult`. -/
def St.start : St := {}

/-- `add_vulnerability`: push a vulnerability onto the shared result. -/
def addVulnerability (severity : Severity) (description : String) (st : St) : St :=
  { st with vulnerabilities := st.vulnerabilities ++ [⟨severity, description⟩] }

/-- `add_warning`: push a warning onto the shared result. -/
def addWarning (description : String) (st : St) : St :=
  { st with warnings := st.warnings ++ [⟨description⟩] }

/-- `add_info`: push an informational item onto the shared result. -/
def addInfo (description : String) (st : St) : St :=
  { st with info := st.info ++ [⟨description⟩] }

-- MARK: Finding description texts (from src/visitor.rs)

def dArithVuln (opStr : String) : String :=
  "Potential arithmetic overflow/underflow detected in " ++ opStr ++ " operation"

def dArithInfo (opStr : String) : String :=
  "Arithmetic operation with runtime overflow protection: " ++ opStr ++ " operation"

def dRemainingAccounts : String :=
  "Accessing remaining_accounts without proper validation"

def dInitVuln : String :=
  "Initialization function without reinitialization check"

def dCpiReload : String :=
  "Account data accessed after CPI without reload()"

def dBumpSeed : String :=
  "Possible bump seed canonicalization vulnerability detected"

def dArbitraryCpi : String :=
  "Potential arbitrary CPI vulnerability detected"

def dHardcodedBump : String :=
  "Hardcoded non-canonical bump value detected"

/-- Single-quote character as a string (used inside one finding text). -/
def sq : String := String.singleton (Char.ofNat 39)

-- MARK: Non-recursive check helpers (src/visitor.rs)

/-- `check_function_naming_conventions`. -/
def checkFunctionNamingConventions (fnName : String) (st : St) : St :=
  let st := if scontains fnName "validate" then
      addWarning ("Function contains " ++ sq ++ "validate" ++ sq
        ++ " in name - ensure proper validation") st
    else st
  let st := if scontains fnName "error" then
      addWarning ("Function contains " ++ sq ++ "error" ++ sq
        ++ " in name - ensure proper error handling") st
    else st
  if scontains fnName "access" then
    addWarning ("Function contains " ++ sq ++ "access" ++ sq
      ++ " in name - ensure proper access control") st
  else st

/-- `check_for_init_checks`: inspect the rendered body tokens for an
`is_initialized` pattern; absent that, report the reinitialization High. -/
def checkForInitChecks (body : StmtList) (st : St) : St :=
  let fnBody := renderStmtsBraced body
  let hasInitCheck := scontains fnBody "is_initialized"
      && (scontains fnBody "if" || scontains fnBody "assert")
  if !hasInitCheck then
    addVulnerability .High dInitVuln st
  else st

/-- `check_for_is_initialized_field`. -/
def checkForIsInitializedField (sd : StructDef) (isAccountsStruct : Bool) (st : St) : St :=
  let hasIsInitialized := sd.fields.any fun f =>
    match f.ident with
    | some id => id == "is_initialized"
    | none => false
  if !hasIsInitialized && !isAccountsStruct then
    addWarning ("Account struct " ++ sd.name ++ " missing is_initialized field") st
  else st

/-- `check_account_info_field`. -/
def checkAccountInfoField (field : FieldDef) (fieldType fieldName structName : String)
    (st : St) : St :=
  if scontains fieldType "AccountInfo" then
    let hasConstraints := field.attrs.any fun attr =>
      scontains attr.text "account" || scontains attr.text "signer"
        || scontains attr.text "constraint" || scontains attr.text "owner"
    let isProgramAccount := scontains fieldName "program" || scontains fieldName "Program"
        || sendsWith fieldName "_program" || sendsWith fieldName "_Program"
    if !hasConstraints then
      if isProgramAccount then
        addVulnerability .Critical
          ("Unchecked program AccountInfo in struct " ++ structName ++ ": field "
            ++ fieldName ++ " - potential arbitrary CPI vulnerability") st
      else
        addVulnerability .High
          ("Unchecked AccountInfo in struct " ++ structName ++ ": field " ++ fieldName) st
    else if isProgramAccount then
      addWarning ("Program account " ++ fieldName
        ++ " uses AccountInfo - consider stronger validation") st
    else st
  else st

/-- `check_account_owner_constraint`. -/
def checkAccountOwnerConstraint (field : FieldDef) (fieldName structName : String)
    (st : St) : St :=
  let hasOwnerCheck := field.attrs.any fun attr => scontains attr.text "owner"
  if !hasOwnerCheck then
    addWarning ("Missing owner check for Account in struct " ++ structName
      ++ ": field " ++ fieldName) st
  else st

/-- `check_account_init_constraints`. -/
def checkAccountInitConstraints (field : FieldDef) (fieldName structName : String)
    (st : St) : St :=
  let hasSpace := field.attrs.any fun attr => scontains attr.text "space"
  let hasInit := field.attrs.any fun attr =>
    scontains attr.text "init" || scontains attr.text "init_if_needed"
  let st := if hasSpace && !hasInit then
      addWarning ("Account space specified without init constraint in struct "
        ++ structName ++ ": field " ++ fieldName) st
    else st
  let hasInitIfNeeded := field.attrs.any fun attr => scontains attr.text "init_if_needed"
  if hasInitIfNeeded then
    addWarning ("Using init_if_needed in struct " ++ structName
      ++ ": field " ++ fieldName) st
  else st

/-- `check_anchor_account_attribute`: bump-seed inspection of an `account`
attribute's rendered text. -/
def checkAnchorAccountAttribute (attr : Attr) (st : St) : St :=
  if !attr.isAccountPath then st
  else
    let attrStr := attr.text
    let st := if scontains attrStr "seeds" && !scontains attrStr "bump" then
        addWarning "PDA seeds constraint without bump constraint" st
      else st
    if scontains attrStr "bump =" && !scontains attrStr "bump = bump"
        && !scontains attrStr "bump = data.bump" then
      if scontains attrStr "bump = 0" || scontains attrStr "bump = 1"
          || scontains attrStr "bump = 2" then
        addVulnerability .Critical dHardcodedBump st
      else
        addWarning "Custom bump value in anchor constraint" st
    else st

/-- `check_for_ata_init_issues`. -/
def checkForAtaInitIssues (attr : Attr) (fieldName : String) (st : St) : St :=
  if !attr.isAccountPath then st
  else
    let attrString := attr.text
    let isAta := scontains attrString "associated_token::" || scontains fieldName "ata"
        || scontains fieldName "token_account" || scontains fieldName "tokenAccount"
    if isAta then
      let attrParts := attrString.splitOn ","
      let hasInit := attrParts.any fun part =>
        scontains part "init" && !scontains part "init_if_needed"
      let hasInitIfNeeded := scontains attrString "init_if_needed"
      if hasInit && !hasInitIfNeeded then
        addVulnerability .Critical
          ("Associated Token Account " ++ sq ++ fieldName ++ sq
            ++ " initialized with " ++ sq ++ "init" ++ sq ++ " constraint instead of "
            ++ sq ++ "init_if_needed" ++ sq) st
      else st
    else st

/-- `check_account_field_validation`. -/
def checkAccountFieldValidation (field : FieldDef) (fieldType fieldName structName : String)
    (st : St) : St :=
  let st := if scontains fieldType "Account<" then
      let st := checkAccountOwnerConstraint field fieldName structName st
      checkAccountInitConstraints field fieldName structName st
    else st
  field.attrs.foldl (fun st attr =>
    if attr.isAccountPath then checkAnchorAccountAttribute attr st else st) st

/-- `check_account_field`. -/
def checkAccountField (field : FieldDef) (structName : String) (st : St) : St :=
  let fieldType := field.ty
  let fieldName := match field.ident with
    | some id => id
    | none => "unnamed"
  let st := checkAccountInfoField field fieldType fieldName structName st
  let st := checkAccountFieldValidation field fieldType fieldName structName st
  field.attrs.foldl (fun st attr => checkForAtaInitIssues attr fieldName st) st

/-- `check_struct`. -/
def checkStruct (sd : StructDef) (st : St) : St :=
  let isAccountsStruct := sd.attrs.any fun attr => scontains attr.text "Accounts"
  let st := if isAccountsStruct then
      let st := addInfo ("Anchor Accounts struct detected: " ++ sd.name) st
      sd.fields.foldl (fun st f => checkAccountField f sd.name st) st
    else st
  if scontains sd.name "Account" then
    let st := addInfo "Account struct detected - ensure proper validation" st
    checkForIsInitializedField sd isAccountsStruct st
  else st

/-- `check_enum`. -/
def checkEnum (enumName : String) (st : St) : St :=
  if scontains enumName "Error" then
    addInfo "Error enum detected - ensure proper error handling" st
  else st

/-- `check_for_remaining_accounts_validation`. -/
def checkForRemainingAccountsValidation (e : Expr) (st : St) : St :=
  match e with
  | .binary op left _ =>
      match op with
      | .eq =>
          match left with
          | .field _ member =>
              if member == "owner" || member == "key" then
                { st with has_remaining_accounts_validation := true }
              else st
          | _ => st
      | _ => st
  | .methodCall _ method _ =>
      if scontains method "check" || scontains method "verify"
          || scontains method "validate" || scontains method "assert" then
        { st with has_remaining_accounts_validation := true }
      else st
  | _ => st

/-- `check_for_initialization_guards`. -/
def checkForInitializationGuards (e : Expr) (st : St) : St :=
  match e with
  | .ifE cond _ _ =>
      if scontains (renderExpr cond) "is_initialized" then
        addInfo "Detected is_initialized check to prevent reinitialization" st
      else st
  | .call func args =>
      let funcStr := renderExpr func
      if scontains funcStr "assert" || scontains funcStr "require" then
        if scontains (renderArgs args) "is_initialized" then
          addInfo "Detected is_initialized assertion to prevent reinitialization" st
        else st
      else st
  | _ => st

/-- `check_expr_for_issues`. -/
def checkExprForIssues (e : Expr) (st : St) : St :=
  match e with
  | .field base member =>
      let st := if st.cpi_performed then
          let fieldStr := renderExpr (.field base member)
          if !scontains fieldStr "reload" then
            { st with accessed_accounts := st.accessed_accounts ++ [fieldStr] }
          else st
        else st
      match base with
      | .path _ =>
          if member == "remaining_accounts" then
            { st with has_remaining_accounts_access := true }
          else st
      | _ => st
  | .methodCall receiver method _ =>
      let receiverStr := renderExpr receiver
      let st := if st.cpi_performed && method != "reload" then
          { st with accessed_accounts := st.accessed_accounts ++ [receiverStr] }
        else st
      let st := if scontains receiverStr "remaining_accounts" then
          { st with has_remaining_accounts_access := true }
        else st
      if method == "create_program_address" then
        if st.current_function_has_bump_param then
          { st with non_canonical_bump_detected := true }
        else st
      else st
  | .cast _ targetType =>
      if scontains targetType "AccountInfo" then
        addWarning "Casting to AccountInfo - ensure proper validation" st
      else st
  | .call func _ =>
      let funcStr := renderExpr func
      let st := if scontains funcStr "invoke" || scontains funcStr "invoke_signed"
          || scontains funcStr "CpiContext" then
          { st with cpi_performed := true }
        else st
      let st := if scontains funcStr "invoke" || scontains funcStr "invoke_signed" then
          addVulnerability .Critical dArbitraryCpi st
        else st
      let st := if scontains funcStr "CpiContext" then
          addWarning "Cross-Program Invocation detected - ensure proper program validation" st
        else st
      if scontains funcStr "create_program_address"
          && !scontains funcStr "find_program_address" then
        addWarning "Using create_program_address directly may lead to non-canonical bump usage" st
      else st
  | _ => st

/-- The `u32::MAX` threshold from `check_large_integer_literal`. -/
def u32Max : Nat := 4294967295

/-- The `u64::MAX` bound of `base10_parse::<u64>`. -/
def u64Max : Nat := 18446744073709551615

/-- `int_lit.base10_parse::<u64>()`: parsing the decimal literal succeeds
exactly when its value fits in a `u64`. -/
def base10ParseU64 (v : Nat) : Option Nat :=
  if v ≤ u64Max then some v else none

/-- `check_large_integer_literal`. -/
def checkLargeIntegerLiteral (v : Nat) (st : St) : St :=
  match base10ParseU64 v with
  | some value =>
      if value > u32Max then
        addWarning ("Large integer literal detected: " ++ toString value) st
      else st
  | none => st

/-- `check_arithmetic_operation` (parameterised by the run-wide
`has_overflow_checks` fact `hoc`). -/
def checkArithmeticOperation (hoc : Bool) (op : BOp) (st : St) : St :=
  let opStr : Option String :=
    match op with
    | .add => some "addition"
    | .sub => some "subtraction"
    | .mul => some "multiplication"
    | _ => none
  match opStr with
  | none => st
  | some s =>
      if !hoc then
        addVulnerability .High (dArithVuln s) st
      else
        addInfo (dArithInfo s) st

-- MARK: The traversal (overridden `Visit` impl plus syn's default traversal)
--
-- The Rust visitor overrides `visit_expr`, `visit_expr_binary`,
-- `visit_expr_lit` and `visit_item`.  Dispatch therefore alternates between
-- the overridden methods and syn's free default-traversal functions:
-- the overridden `visit_expr` sends the two children of a binary expression
-- through the free `syn::visit::visit_expr` (so a child that is itself a
-- binary or literal expression reaches `visit_expr_binary`/`visit_expr_lit`
-- directly, skipping the overridden `visit_expr` checks), while every other
-- default traversal sends children back through the overridden `visit_expr`.
-- `visitExpr` models the overridden method with syn's per-variant default
-- child traversal inlined; `freeVisitExpr` models the free dispatch applied
-- to the direct children of a binary expression.

mutual
/-- The overridden `visit_expr` method. -/
def visitExpr (hoc : Bool) (e : Expr) (st : St) : St :=
  let st := if st.current_function_is_init then checkForInitializationGuards e st else st
  let st := checkExprForIssues e st
  let st := checkForRemainingAccountsValidation e st
  match e with
  | .binary op l r =>
      let st := match op with
        | .add | .sub | .mul => checkArithmeticOperation hoc op st
        | _ => st
      freeVisitExpr hoc r (freeVisitExpr hoc l st)
  | .litInt v => checkLargeIntegerLiteral v st
  | .path _ => st
  | .field b _ => visitExpr hoc b st
  | .methodCall r _ args => visitExprArgs hoc args (visitExpr hoc r st)
  | .call f args => visitExprArgs hoc args (visitExpr hoc f st)
  | .cast inner _ => visitExpr hoc inner st
  | .ifE c t e2 => visitOptExpr hoc e2 (visitStmtList hoc t (visitExpr hoc c st))
  | .blockE b => visitStmtList hoc b st

/-- The free `syn::visit::visit_expr` dispatch, as applied to the direct
children of a binary expression by the overridden `visit_expr`.  A binary
child reaches the overridden `visit_expr_binary` (the arithmetic check, then
both operands through the overridden `visit_expr`, inlined here); a literal
child reaches the overridden `visit_expr_lit`
(`check_large_integer_literal`); every other variant gets syn's default
child traversal through the overridden `visit_expr`. -/
def freeVisitExpr (hoc : Bool) (e : Expr) (st : St) : St :=
  match e with
  | .binary op l r =>
      let st := checkArithmeticOperation hoc op st
      visitExpr hoc r (visitExpr hoc l st)
  | .litInt v => checkLargeIntegerLiteral v st
  | .path _ => st
  | .field b _ => visitExpr hoc b st
  | .methodCall r _ args => visitExprArgs hoc args (visitExpr hoc r st)
  | .call f args => visitExprArgs hoc args (visitExpr hoc f st)
  | .cast inner _ => visitExpr hoc inner st
  | .ifE c t e2 => visitOptExpr hoc e2 (visitStmtList hoc t (visitExpr hoc c st))
  | .blockE b => visitStmtList hoc b st

/-- Default traversal of a call/method-call argument list. -/
def visitExprArgs (hoc : Bool) (es : ExprList) (st : St) : St :=
  match es with
  | .nil => st
  | .cons e rest => visitExprArgs hoc rest (visitExpr hoc e st)

def visitOptExpr (hoc : Bool) (oe : OptExpr) (st : St) : St :=
  match oe with
  | .none => st
  | .some e => visitExpr hoc e st

/-- syn's default `visit_stmt`: expression statements and `let` initializers
go through the overridden `visit_expr`; nested items go through the
overridden `visit_item`. -/
def visitStmt (hoc : Bool) (s : Stmt) (st : St) : St :=
  match s with
  | .exprS e => visitExpr hoc e st
  | .localS _ i => visitOptExpr hoc i st
  | .itemS it => visitItem hoc it st

def visitStmtList (hoc : Bool) (ss : StmtList) (st : St) : St :=
  match ss with
  | .nil => st
  | .cons s rest => visitStmtList hoc rest (visitStmt hoc s st)

/-- The overridden `visit_item` dispatch.  The function arm inlines
`check_function`, in source order: per-function entry resets, the init-name
classification, the name-based advisory warnings, the bump parameter scan,
the body traversal, and the function-exit checks (including the misplaced
CPI-tracking reset that precedes the CPI/reload test).  The wrapper
`checkFunction` below re-exposes that arm under its source name. -/
def visitItem (hoc : Bool) (i : Item) (st : St) : St :=
  match i with
  | .fnI name params body =>
      let st := { st with has_remaining_accounts_access := false,
                          has_remaining_accounts_validation := false }
      let isInitFn := scontains name "initialize" || scontains name "init"
          || scontains name "create"
      let st := { st with current_function_is_init := isInitFn }
      let st := checkFunctionNamingConventions name st
      let hasBumpParam := params.any fun p => scontains p "bump"
      let st := { st with current_function_has_bump_param := hasBumpParam }
      let st := visitStmtList hoc body st
      let st := if st.has_remaining_accounts_access
          && !st.has_remaining_accounts_validation then
          addVulnerability .High dRemainingAccounts st
        else st
      let st := if st.current_function_is_init then checkForInitChecks body st else st
      let st := { st with current_function_is_init := false }
      let st := { st with cpi_performed := false, accessed_accounts := [] }
      let st := if st.cpi_performed && !st.accessed_accounts.isEmpty then
          addVulnerability .Critical dCpiReload st
        else st
      let st := { st with cpi_performed := false, accessed_accounts := [] }
      let st := if st.non_canonical_bump_detected
          && st.current_function_has_bump_param then
          addVulnerability .Critical dBumpSeed st
        else st
      { st with non_canonical_bump_detected := false,
                current_function_has_bump_param := false }
  | .structI sd => checkStruct sd st
  | .enumI n => checkEnum n st
  | .modI items => visitItemList hoc items st

def visitItemList (hoc : Bool) (is : ItemList) (st : St) : St :=
  match is with
  | .nil => st
  | .cons i rest => visitItemList hoc rest (visitItem hoc i st)
end

/-- `check_function`, re-exposed under its source name: definitionally equal
to the function arm of `visitItem`. -/
def checkFunction (hoc : Bool) (name : String) (params : List String)
    (body : StmtList) (st : St) : St :=
  let st := { st with has_remaining_accounts_access := false,
                      has_remaining_accounts_validation := false }
  let isInitFn := scontains name "initialize" || scontains name "init"
      || scontains name "create"
  let st := { st with current_function_is_init := isInitFn }
  let st := checkFunctionNamingConventions name st
  let hasBumpParam := params.any fun p => scontains p "bump"
  let st := { st with current_function_has_bump_param := hasBumpParam }
  let st := visitStmtList hoc body st
  let st := if st.has_remaining_accounts_access
      && !st.has_remaining_accounts_validation then
      addVulnerability .High dRemainingAccounts st
    else st
  let st := if st.current_function_is_init then checkForInitChecks body st else st
  let st := { st with current_function_is_init := false }
  let st := { st with cpi_performed := false, accessed_accounts := [] }
  let st := if st.cpi_performed && !st.accessed_accounts.isEmpty then
      addVulnerability .Critical dCpiReload st
    else st
  let st := { st with cpi_performed := false, accessed_accounts := [] }
  let st := if st.non_canonical_bump_detected && st.current_function_has_bump_param then
      addVulnerability .Critical dBumpSeed st
    else st
  { st with non_canonical_bump_detected := false, current_function_has_bump_param := false }

theorem visitItem_fnI (hoc : Bool) (name : String) (params : List String)
    (body : StmtList) (st : St) :
    visitItem hoc (.fnI name params body) st = checkFunction hoc name params body st := by
  simp only [visitItem, checkFunction]

/-- syn's `visit_file`: visit every top-level item through the overridden
`visit_item`. -/
def visitFile (hoc : Bool) (items : ItemList) (st : St) : St :=
  visitItemList hoc items st

-- MARK: Nested-item detection (for per-function isolation statements)

mutual
/-- Does the expression contain a nested item (through blocks)? -/
def hasItemE : Expr → Bool
  | .binary _ l r => hasItemE l || hasItemE r
  | .field b _ => hasItemE b
  | .methodCall r _ args => hasItemE r || hasItemA args
  | .call f args => hasItemE f || hasItemA args
  | .cast inner _ => hasItemE inner
  | .ifE c t e2 => hasItemE c || hasItemS t || hasItemO e2
  | .blockE b => hasItemS b
  | .path _ => false
  | .litInt _ => false

def hasItemA : ExprList → Bool
  | .nil => false
  | .cons e es => hasItemE e || hasItemA es

def hasItemO : OptExpr → Bool
  | .none => false
  | .some e => hasItemE e

def hasItemStmt : Stmt → Bool
  | .exprS e => hasItemE e
  | .localS _ i => hasItemO i
  | .itemS _ => true

def hasItemS : StmtList → Bool
  | .nil => false
  | .cons s ss => hasItemStmt s || hasItemS ss
end

-- MARK: Description Catalog (src/utils.rs)

/-- A JSON value, the shape `serde_json::Value` exposes to this code. -/
inductive Json where
  | null
  | jstr (s : String)
  | jnum (n : Int)
  | jbool (b : Bool)
  | jarr (xs : List Json)
  | jobj (fields : List (String × Json))

/-- `value[key]`: field lookup, `Null` when absent or not an object. -/
def Json.getField : Json → String → Json
  | .jobj fields, k =>
      match fields.find? (fun kv => kv.1 == k) with
      | some kv => kv.2
      | none => .null
  | _, _ => .null

/-- `value.as_array()`. -/
def Json.asArray : Json → Option (List Json)
  | .jarr xs => some xs
  | _ => none

/-- `value.as_str()`. -/
def Json.asStr : Json → Option String
  | .jstr s => some s
  | _ => none

/-- A file in the `vulnerabilities` directory: its name and the outcome of
`fs::read_to_string` on it (`Except.error` models an I/O failure). -/
structure FsFile where
  name : String
  content : Except Unit String

/-- The `vulnerabilities` directory when it exists: whether `fs::read_dir`
succeeds, and the directory entries. -/
structure DirListing where
  readDirOk : Bool
  files : List FsFile

/-- The two error classes `load_vulnerability_descriptions` can propagate
through `?`: an I/O failure reading a file inside the directory, or a
`serde_json` parse failure on its contents. -/
inductive LoadError where
  | ioError
  | parseError
  deriving DecidableEq, Repr

/-- `path.exists()` plus `fs::read_to_string(path)` for a named file. -/
def fileNamed (files : List FsFile) (n : String) : Option FsFile :=
  files.find? (fun f => f.name == n)

/-- `HashMap::insert`: replace the value when the key is present, otherwise
add the binding. -/
def insertAssoc (l : List (String × Json)) (k : String) (v : Json) :
    List (String × Json) :=
  if l.any (fun kv => kv.1 == k) then
    l.map (fun kv => if kv.1 == k then (k, v) else kv)
  else l ++ [(k, v)]

/-- The loop over the `vulnerabilities` array of `index.json`: ids without a
string form or without a matching file are skipped, but a read or parse
failure of a listed file propagates as an error. -/
def loadIndexed (parseJson : String → Option Json) (files : List FsFile) :
    List Json → List (String × Json) → Except LoadError (List (String × Json))
  | [], descriptions => .ok descriptions
  | vuln :: rest, descriptions =>
      match (vuln.getField "id").asStr with
      | none => loadIndexed parseJson files rest descriptions
      | some id =>
          match fileNamed files (id ++ ".json") with
          | none => loadIndexed parseJson files rest descriptions
          | some f =>
              match f.content with
              | .error _ => .error .ioError
              | .ok c =>
                  match parseJson c with
                  | none => .error .parseError
                  | some vulnData =>
                      loadIndexed parseJson files rest (insertAssoc descriptions id vulnData)

/-- The fallback loop over every `*.json` entry other than `index.json`,
keyed by filename stem; read and parse failures propagate as errors. -/
def loadAllJson (parseJson : String → Option Json) :
    List FsFile → List (String × Json) → Except LoadError (List (String × Json))
  | [], descriptions => .ok descriptions
  | f :: rest, descriptions =>
      if sendsWith f.name ".json" && f.name != "index.json" then
        match f.content with
        | .error _ => .error .ioError
        | .ok c =>
            match parseJson c with
            | none => .error .parseError
            | some vulnData =>
                loadAllJson parseJson rest
                  (insertAssoc descriptions (f.name.dropRight 5) vulnData)
      else loadAllJson parseJson rest descriptions

/-- `load_vulnerability_descriptions`, over an abstract directory state.
`dir = none` models an absent `vulnerabilities` directory; the JSON parser
of the serde collaborator is a parameter. -/
def loadVulnerabilityDescriptions (parseJson : String → Option Json)
    (dir : Option DirListing) : Except LoadError (List (String × Json)) :=
  match dir with
  | none => .ok []
  | some d =>
      match fileNamed d.files "index.json" with
      | some idx =>
          match idx.content with
          | .error _ => .error .ioError
          | .ok indexContent =>
              match parseJson indexContent with
              | none => .error .parseError
              | some index =>
                  match (index.getField "vulnerabilities").asArray with
                  | some vulns => loadIndexed parseJson d.files vulns []
                  | none => .ok []
      | none =>
          if d.readDirOk then loadAllJson parseJson d.files []
          else .ok []

/-- `find_vulnerability_description`: the first entry (in iteration order)
whose key contains the keyword, by Rust `String::contains`
(case-sensitive). -/
def findVulnerabilityDescription (key : String) :
    List (String × Json) → Option Json
  | [] => none
  | (vulnKey, desc) :: rest =>
      if scontains vulnKey key then some desc
      else findVulnerabilityDescription key rest

-- MARK: Analyzer driver (src/lib.rs)

/-- A discovered source file: the outcome of `fs::read_to_string` on it. -/
structure SrcFile where
  read : Except Unit String

/-- `SolanaAnalyzer::analyze_file`, over an abstract syn parser
(`parseSyn`): an I/O error reading the file propagates (`none`); a parse
failure appends one warning and skips the visitor; a parsed file is
traversed by the visitor. -/
def analyzeFile (hoc : Bool) (parseSyn : String → Except String ItemList)
    (f : SrcFile) (st : St) : Option St :=
  match f.read with
  | .error _ => none
  | .ok content =>
      match parseSyn content with
      | .ok ast => some (visitFile hoc ast st)
      | .error err => some (addWarning ("Failed to parse file: " ++ err) st)

/-- The per-file loop of `SolanaAnalyzer::analyze`: `?` aborts the whole
run on the first `analyze_file` error. -/
def analyzeFiles (hoc : Bool) (parseSyn : String → Except String ItemList) :
    List SrcFile → St → Option St
  | [], st => some st
  | f :: rest, st =>
      match analyzeFile hoc parseSyn f st with
      | none => none
      | some st2 => analyzeFiles hoc parseSyn rest st2

/-- The informational note `analyze` pushes when overflow checks are on. -/
def dOverflowChecksOn : String :=
  "Project has overflow-checks = true in Cargo.toml, which provides runtime protection against integer overflow/underflow"

/-- `SolanaAnalyzer::analyze`: load the catalog (`?` aborts the run on a
load error), push the overflow-checks note, then analyze every discovered
file (`?` aborts the run on a file read error).  The catalog is returned
alongside the findings; no detection step reads it. -/
def analyze (hoc : Bool) (parseJson : String → Option Json)
    (parseSyn : String → Except String ItemList) (dir : Option DirListing)
    (files : List SrcFile) : Except LoadError (List (String × Json) × St) :=
  match loadVulnerabilityDescriptions parseJson dir with
  | .error e => .error e
  | .ok descriptions =>
      let st := St.start
      let st := if hoc then addInfo dOverflowChecksOn st else st
      match analyzeFiles hoc parseSyn files st with
      | none => .error .ioError
      | some st2 => .ok (descriptions, st2)

-- MARK: Counting arithmetic operations and classifying findings

/-- Is the operator one of the arithmetic operators the visitor reports? -/
def isArithOp : BOp → Bool
  | .add | .sub | .mul => true
  | _ => false

mutual
/-- Number of add/sub/mul binary nodes in an expression. -/
def arithCountE : Expr → Nat
  | .binary op l r => (if isArithOp op then 1 else 0) + arithCountE l + arithCountE r
  | .field b _ => arithCountE b
  | .methodCall r _ args => arithCountE r + arithCountA args
  | .call f args => arithCountE f + arithCountA args
  | .cast inner _ => arithCountE inner
  | .ifE c t e2 => arithCountE c + arithCountS t + arithCountO e2
  | .blockE b => arithCountS b
  | .path _ => 0
  | .litInt _ => 0

def arithCountA : ExprList → Nat
  | .nil => 0
  | .cons e es => arithCountE e + arithCountA es

def arithCountO : OptExpr → Nat
  | .none => 0
  | .some e => arithCountE e

def arithCountStmt : Stmt → Nat
  | .exprS e => arithCountE e
  | .localS _ i => arithCountO i
  | .itemS it => arithCountI it

def arithCountS : StmtList → Nat
  | .nil => 0
  | .cons s ss => arithCountStmt s + arithCountS ss

def arithCountI : Item → Nat
  | .fnI _ _ body => arithCountS body
  | .modI items => arithCountL items
  | .structI _ => 0
  | .enumI _ => 0

def arithCountL : ItemList → Nat
  | .nil => 0
  | .cons i rest => arithCountI i + arithCountL rest
end

/-- Is this finding one of the arithmetic overflow/underflow High
vulnerabilities? -/
def isArithVuln (v : Vuln) : Bool :=
  v.severity == .High && (v.description == dArithVuln "addition"
    || v.description == dArithVuln "subtraction"
    || v.description == dArithVuln "multiplication")

/-- Is this finding one of the arithmetic overflow-protection Info items? -/
def isArithInfo (i : Info) : Bool :=
  i.description == dArithInfo "addition" || i.description == dArithInfo "subtraction"
    || i.description == dArithInfo "multiplication"

/-- Is this finding the reinitialization-check High vulnerability? -/
def isInitVuln (v : Vuln) : Bool :=
  v.severity == .High && v.description == dInitVuln

/-- Is this finding the remaining-accounts High vulnerability? -/
def isRemainingAccountsVuln (v : Vuln) : Bool :=
  v.severity == .High && v.description == dRemainingAccounts

/-- Arithmetic-vulnerability count of a state. -/
@[reducible] def AV (st : St) : Nat := st.vulnerabilities.countP isArithVuln

/-- Arithmetic-info count of a state. -/
@[reducible] def AI (st : St) : Nat := st.info.countP isArithInfo

theorem vulns_ite (c : Prop) [Decidable c] (a b : St) :
    (if c then a else b).vulnerabilities
      = if c then a.vulnerabilities else b.vulnerabilities := by
  split_ifs <;> rfl

theorem info_ite (c : Prop) [Decidable c] (a b : St) :
    (if c then a else b).info = if c then a.info else b.info := by
  split_ifs <;> rfl

theorem isInit_ite (c : Prop) [Decidable c] (a b : St) :
    (if c then a else b).current_function_is_init
      = if c then a.current_function_is_init else b.current_function_is_init := by
  split_ifs <;> rfl

theorem countP_ite {alpha : Type} (p : alpha → Bool) (c : Prop) [Decidable c]
    (l1 l2 : List alpha) :
    List.countP p (if c then l1 else l2)
      = if c then List.countP p l1 else List.countP p l2 := by
  split_ifs <;> rfl

-- MARK: String-inequality helpers for dynamically built descriptions

theorem sdata_append (a b : String) : (a ++ b).data = a.data ++ b.data := rfl

theorem lt_length_append (a b : String) (k : Nat) (hk : k < a.data.length) :
    k < (a ++ b).data.length := by
  rw [sdata_append, List.length_append]
  omega

theorem get_append_of_lt (a b : String) (k : Nat) (hk : k < a.data.length) :
    (a ++ b).data.get? k = a.data.get? k := by
  rw [sdata_append]
  exact List.get?_append hk

theorem beq_false_of_get_ne (x t : String) (k : Nat)
    (h : x.data.get? k ≠ t.data.get? k) : (x == t) = false := by
  rw [beq_eq_false_iff_ne]
  intro he
  exact h (by rw [he])

/-- The dynamically built "Unchecked AccountInfo in struct …" description
starts with the letter U. -/
theorem uncheckedAccountInfo_head (s f : String) :
    ("Unchecked AccountInfo in struct " ++ s ++ ": field " ++ f).data.get? 0
      = some (Char.ofNat 85) := by
  have h0 : (0 : Nat) < ("Unchecked AccountInfo in struct ").data.length := by decide
  rw [get_append_of_lt _ _ _ (lt_length_append _ _ _ (lt_length_append _ _ _ h0)),
    get_append_of_lt _ _ _ (lt_length_append _ _ _ h0),
    get_append_of_lt _ _ _ h0]
  decide

/-- The dynamically built "Unchecked AccountInfo in struct …" description is
never an arithmetic-vulnerability description (they differ at their first
character). -/
theorem uncheckedAccountInfo_ne_arith (s f opStr : String) :
    (("Unchecked AccountInfo in struct " ++ s ++ ": field " ++ f) == dArithVuln opStr) = false := by
  apply beq_false_of_get_ne _ _ 0
  have h0 : (0 : Nat) < ("Potential arithmetic overflow/underflow detected in ").data.length := by
    decide
  have h2 : (dArithVuln opStr).data.get? 0 = some (Char.ofNat 80) := by
    unfold dArithVuln
    rw [get_append_of_lt _ _ _ (lt_length_append _ _ _ h0), get_append_of_lt _ _ _ h0]
    decide
  rw [uncheckedAccountInfo_head, h2]
  decide

/-- The dynamically built "Unchecked AccountInfo in struct …" description is
never the reinitialization-check description. -/
theorem uncheckedAccountInfo_ne_init (s f : String) :
    (("Unchecked AccountInfo in struct " ++ s ++ ": field " ++ f) == dInitVuln) = false := by
  apply beq_false_of_get_ne _ _ 0
  rw [uncheckedAccountInfo_head]
  decide

/-- The dynamically built "Anchor Accounts struct detected: …" description is
never an arithmetic-info description (they differ at their second
character). -/
theorem anchorAccounts_ne_arithInfo (nm opStr : String) :
    (("Anchor Accounts struct detected: " ++ nm) == dArithInfo opStr) = false := by
  apply beq_false_of_get_ne _ _ 1
  have ha : (1 : Nat) < ("Anchor Accounts struct detected: ").data.length := by decide
  have h1 : ("Anchor Accounts struct detected: " ++ nm).data.get? 1
      = some (Char.ofNat 110) := by
    rw [get_append_of_lt _ _ _ ha]
    decide
  have hb : (1 : Nat) < ("Arithmetic operation with runtime overflow protection: ").data.length := by
    decide
  have h2 : (dArithInfo opStr).data.get? 1 = some (Char.ofNat 114) := by
    unfold dArithInfo
    rw [get_append_of_lt _ _ _ (lt_length_append _ _ _ hb), get_append_of_lt _ _ _ hb]
    decide
  rw [h1, h2]
  decide

-- MARK: Classification facts for every finding the visitor can emit

@[simp] theorem isArithVuln_critical (d : String) :
    isArithVuln ⟨.Critical, d⟩ = false := rfl

@[simp] theorem isArithVuln_init : isArithVuln ⟨.High, dInitVuln⟩ = false := by decide

@[simp] theorem isArithVuln_ra : isArithVuln ⟨.High, dRemainingAccounts⟩ = false := by
  decide

@[simp] theorem isArithVuln_unchecked (s f : String) :
    isArithVuln ⟨.High, "Unchecked AccountInfo in struct " ++ s ++ ": field " ++ f⟩
      = false := by
  simp [isArithVuln, uncheckedAccountInfo_ne_arith]

@[simp] theorem isInitVuln_critical (d : String) :
    isInitVuln ⟨.Critical, d⟩ = false := rfl

@[simp] theorem isInitVuln_arith (opStr : String) :
    isInitVuln ⟨.High, dArithVuln opStr⟩ = false := by
  simp only [isInitVuln]
  have h0 : (0 : Nat) < ("Potential arithmetic overflow/underflow detected in ").data.length := by
    decide
  have h2 : (dArithVuln opStr).data.get? 0 = some (Char.ofNat 80) := by
    unfold dArithVuln
    rw [get_append_of_lt _ _ _ (lt_length_append _ _ _ h0), get_append_of_lt _ _ _ h0]
    decide
  have h3 : ((dArithVuln opStr) == dInitVuln) = false := by
    apply beq_false_of_get_ne _ _ 0
    rw [h2]
    decide
  simp [h3]

@[simp] theorem isInitVuln_ra : isInitVuln ⟨.High, dRemainingAccounts⟩ = false := by
  decide

@[simp] theorem isInitVuln_unchecked (s f : String) :
    isInitVuln ⟨.High, "Unchecked AccountInfo in struct " ++ s ++ ": field " ++ f⟩
      = false := by
  simp [isInitVuln, uncheckedAccountInfo_ne_init]

@[simp] theorem isInitVuln_dInit : isInitVuln ⟨.High, dInitVuln⟩ = true := by decide

@[simp] theorem isArithInfo_anchor (nm : String) :
    isArithInfo ⟨"Anchor Accounts struct detected: " ++ nm⟩ = false := by
  simp [isArithInfo, anchorAccounts_ne_arithInfo]

@[simp] theorem isArithInfo_acct : isArithInfo
    ⟨"Account struct detected - ensure proper validation"⟩ = false := by decide

@[simp] theorem isArithInfo_enum : isArithInfo
    ⟨"Error enum detected - ensure proper error handling"⟩ = false := by decide

@[simp] theorem isArithInfo_guard1 : isArithInfo
    ⟨"Detected is_initialized check to prevent reinitialization"⟩ = false := by decide

@[simp] theorem isArithInfo_guard2 : isArithInfo
    ⟨"Detected is_initialized assertion to prevent reinitialization"⟩ = false := by decide

-- MARK: Effect of the primitive result sinks on the finding counters

@[simp] theorem AV_addWarning (d : String) (st : St) :
    AV (addWarning d st) = AV st := rfl

@[simp] theorem AI_addWarning (d : String) (st : St) :
    AI (addWarning d st) = AI st := rfl

@[simp] theorem AV_addInfo (d : String) (st : St) :
    AV (addInfo d st) = AV st := rfl

@[simp] theorem AI_addVulnerability (s : Severity) (d : String) (st : St) :
    AI (addVulnerability s d st) = AI st := rfl

theorem AV_addVulnerability (s : Severity) (d : String) (st : St) :
    AV (addVulnerability s d st) = AV st + (if isArithVuln ⟨s, d⟩ then 1 else 0) := by
  simp [AV, addVulnerability, List.countP_append, List.countP_cons]

theorem AI_addInfo (d : String) (st : St) :
    AI (addInfo d st) = AI st + (if isArithInfo ⟨d⟩ then 1 else 0) := by
  simp [AI, addInfo, List.countP_append, List.countP_cons]

@[simp] theorem AV_addVulnerability_critical (d : String) (st : St) :
    AV (addVulnerability .Critical d st) = AV st := by
  simp [AV_addVulnerability]

@[simp] theorem AV_addVulnerability_init (st : St) :
    AV (addVulnerability .High dInitVuln st) = AV st := by
  simp [AV_addVulnerability]

@[simp] theorem AV_addVulnerability_ra (st : St) :
    AV (addVulnerability .High dRemainingAccounts st) = AV st := by
  simp [AV_addVulnerability]

@[simp] theorem AV_addVulnerability_unchecked (s f : String) (st : St) :
    AV (addVulnerability .High
      ("Unchecked AccountInfo in struct " ++ s ++ ": field " ++ f) st) = AV st := by
  simp [AV_addVulnerability]

@[simp] theorem AI_addInfo_anchor (nm : String) (st : St) :
    AI (addInfo ("Anchor Accounts struct detected: " ++ nm) st) = AI st := by
  simp [AI_addInfo]

@[simp] theorem AI_addInfo_acct (st : St) :
    AI (addInfo "Account struct detected - ensure proper validation" st) = AI st := by
  simp [AI_addInfo]

@[simp] theorem AI_addInfo_enum (st : St) :
    AI (addInfo "Error enum detected - ensure proper error handling" st) = AI st := by
  simp [AI_addInfo]

@[simp] theorem AI_addInfo_guard1 (st : St) :
    AI (addInfo "Detected is_initialized check to prevent reinitialization" st) = AI st := by
  simp [AI_addInfo]

@[simp] theorem AI_addInfo_guard2 (st : St) :
    AI (addInfo "Detected is_initialized assertion to prevent reinitialization" st) = AI st := by
  simp [AI_addInfo]

-- MARK: AV/AI preservation of the non-recursive checks

@[simp] theorem checkFunctionNamingConventions_AV (n : String) (st : St) :
    AV (checkFunctionNamingConventions n st) = AV st := by
  unfold checkFunctionNamingConventions
  dsimp only
  split_ifs <;> simp

@[simp] theorem checkFunctionNamingConventions_AI (n : String) (st : St) :
    AI (checkFunctionNamingConventions n st) = AI st := by
  unfold checkFunctionNamingConventions
  dsimp only
  split_ifs <;> simp

@[simp] theorem checkForInitChecks_AV (body : StmtList) (st : St) :
    AV (checkForInitChecks body st) = AV st := by
  unfold checkForInitChecks
  dsimp only
  split_ifs <;> simp

@[simp] theorem checkForInitChecks_AI (body : StmtList) (st : St) :
    AI (checkForInitChecks body st) = AI st := by
  unfold checkForInitChecks
  dsimp only
  split_ifs <;> simp

@[simp] theorem checkForIsInitializedField_AV (sd : StructDef) (b : Bool) (st : St) :
    AV (checkForIsInitializedField sd b st) = AV st := by
  unfold checkForIsInitializedField
  dsimp only
  split_ifs <;> simp

@[simp] theorem checkForIsInitializedField_AI (sd : StructDef) (b : Bool) (st : St) :
    AI (checkForIsInitializedField sd b st) = AI st := by
  unfold checkForIsInitializedField
  dsimp only
  split_ifs <;> simp

@[simp] theorem checkAccountInfoField_AV (f : FieldDef) (ft fn sn : String) (st : St) :
    AV (checkAccountInfoField f ft fn sn st) = AV st := by
  unfold checkAccountInfoField
  dsimp only
  split_ifs <;> simp

@[simp] theorem checkAccountInfoField_AI (f : FieldDef) (ft fn sn : String) (st : St) :
    AI (checkAccountInfoField f ft fn sn st) = AI st := by
  unfold checkAccountInfoField
  dsimp only
  split_ifs <;> simp

@[simp] theorem checkAccountOwnerConstraint_AV (f : FieldDef) (fn sn : String) (st : St) :
    AV (checkAccountOwnerConstraint f fn sn st) = AV st := by
  unfold checkAccountOwnerConstraint
  dsimp only
  split_ifs <;> simp

@[simp] theorem checkAccountOwnerConstraint_AI (f : FieldDef) (fn sn : String) (st : St) :
    AI (checkAccountOwnerConstraint f fn sn st) = AI st := by
  unfold checkAccountOwnerConstraint
  dsimp only
  split_ifs <;> simp

@[simp] theorem checkAccountInitConstraints_AV (f : FieldDef) (fn sn : String) (st : St) :
    AV (checkAccountInitConstraints f fn sn st) = AV st := by
  unfold checkAccountInitConstraints
  dsimp only
  split_ifs <;> simp

@[simp] theorem checkAccountInitConstraints_AI (f : FieldDef) (fn sn : String) (st : St) :
    AI (checkAccountInitConstraints f fn sn st) = AI st := by
  unfold checkAccountInitConstraints
  dsimp only
  split_ifs <;> simp

@[simp] theorem checkAnchorAccountAttribute_AV (a : Attr) (st : St) :
    AV (checkAnchorAccountAttribute a st) = AV st := by
  unfold checkAnchorAccountAttribute
  dsimp only
  split_ifs <;> simp

@[simp] theorem checkAnchorAccountAttribute_AI (a : Attr) (st : St) :
    AI (checkAnchorAccountAttribute a st) = AI st := by
  unfold checkAnchorAccountAttribute
  dsimp only
  split_ifs <;> simp

@[simp] theorem checkForAtaInitIssues_AV (a : Attr) (fn : String) (st : St) :
    AV (checkForAtaInitIssues a fn st) = AV st := by
  unfold checkForAtaInitIssues
  dsimp only
  split_ifs <;> simp

@[simp] theorem checkForAtaInitIssues_AI (a : Attr) (fn : String) (st : St) :
    AI (checkForAtaInitIssues a fn st) = AI st := by
  unfold checkForAtaInitIssues
  dsimp only
  split_ifs <;> simp

/-- A `List.foldl` step that preserves a counter preserves it overall. -/
theorem foldl_counter {alpha : Type} (cnt : St → Nat) (g : St → alpha → St)
    (hg : forall st a, cnt (g st a) = cnt st) :
    forall (l : List alpha) (st : St), cnt (List.foldl g st l) = cnt st := by
  intro l
  induction l with
  | nil => intro st; simp
  | cons a rest ih =>
    intro st
    rw [List.foldl_cons, ih (g st a), hg st a]

@[simp] theorem checkAccountFieldValidation_AV (f : FieldDef) (ft fn sn : String) (st : St) :
    AV (checkAccountFieldValidation f ft fn sn st) = AV st := by
  unfold checkAccountFieldValidation
  dsimp only
  have hfold := foldl_counter AV
    (fun st attr => if attr.isAccountPath then checkAnchorAccountAttribute attr st else st)
    (by intro st a; dsimp only; split_ifs <;> simp) f.attrs
  split_ifs with h
  · rw [hfold]; simp
  · exact hfold st

@[simp] theorem checkAccountFieldValidation_AI (f : FieldDef) (ft fn sn : String) (st : St) :
    AI (checkAccountFieldValidation f ft fn sn st) = AI st := by
  unfold checkAccountFieldValidation
  dsimp only
  have hfold := foldl_counter AI
    (fun st attr => if attr.isAccountPath then checkAnchorAccountAttribute attr st else st)
    (by intro st a; dsimp only; split_ifs <;> simp) f.attrs
  split_ifs with h
  · rw [hfold]; simp
  · exact hfold st

@[simp] theorem checkAccountField_AV (f : FieldDef) (sn : String) (st : St) :
    AV (checkAccountField f sn st) = AV st := by
  unfold checkAccountField
  dsimp only
  have hfold := foldl_counter AV
    (fun st attr => checkForAtaInitIssues attr
      (match f.ident with | some id => id | none => "unnamed") st)
    (by intro st a; simp) f.attrs
  rw [hfold]; simp

@[simp] theorem checkAccountField_AI (f : FieldDef) (sn : String) (st : St) :
    AI (checkAccountField f sn st) = AI st := by
  unfold checkAccountField
  dsimp only
  have hfold := foldl_counter AI
    (fun st attr => checkForAtaInitIssues attr
      (match f.ident with | some id => id | none => "unnamed") st)
    (by intro st a; simp) f.attrs
  rw [hfold]; simp

@[simp] theorem checkStruct_AV (sd : StructDef) (st : St) :
    AV (checkStruct sd st) = AV st := by
  unfold checkStruct
  dsimp only
  have hfold := foldl_counter AV (fun st f => checkAccountField f sd.name st)
    (by intro st f; simp) sd.fields
  split_ifs <;> simp [hfold]

@[simp] theorem checkStruct_AI (sd : StructDef) (st : St) :
    AI (checkStruct sd st) = AI st := by
  unfold checkStruct
  dsimp only
  have hfold := foldl_counter AI (fun st f => checkAccountField f sd.name st)
    (by intro st f; simp) sd.fields
  split_ifs <;> simp [hfold]

@[simp] theorem checkEnum_AV (n : String) (st : St) :
    AV (checkEnum n st) = AV st := by
  unfold checkEnum
  split_ifs <;> simp

@[simp] theorem checkEnum_AI (n : String) (st : St) :
    AI (checkEnum n st) = AI st := by
  unfold checkEnum
  split_ifs <;> simp

@[simp] theorem checkForRemainingAccountsValidation_vulns (e : Expr) (st : St) :
    (checkForRemainingAccountsValidation e st).vulnerabilities = st.vulnerabilities := by
  unfold checkForRemainingAccountsValidation
  cases e <;> try rfl
  case binary op l r =>
    cases op <;> try rfl
    cases l <;> try rfl
    case field b m =>
      dsimp only
      split_ifs <;> rfl
  case methodCall r m args =>
    dsimp only
    split_ifs <;> rfl

@[simp] theorem checkForRemainingAccountsValidation_info (e : Expr) (st : St) :
    (checkForRemainingAccountsValidation e st).info = st.info := by
  unfold checkForRemainingAccountsValidation
  cases e <;> try rfl
  case binary op l r =>
    cases op <;> try rfl
    cases l <;> try rfl
    case field b m =>
      dsimp only
      split_ifs <;> rfl
  case methodCall r m args =>
    dsimp only
    split_ifs <;> rfl

@[simp] theorem checkForRemainingAccountsValidation_AV (e : Expr) (st : St) :
    AV (checkForRemainingAccountsValidation e st) = AV st := by
  unfold AV
  rw [checkForRemainingAccountsValidation_vulns]

@[simp] theorem checkForRemainingAccountsValidation_AI (e : Expr) (st : St) :
    AI (checkForRemainingAccountsValidation e st) = AI st := by
  unfold AI
  rw [checkForRemainingAccountsValidation_info]

@[simp] theorem checkForInitializationGuards_vulns (e : Expr) (st : St) :
    (checkForInitializationGuards e st).vulnerabilities = st.vulnerabilities := by
  unfold checkForInitializationGuards
  cases e <;> try rfl
  case ifE c t e2 =>
    dsimp only
    split_ifs <;> rfl
  case call f args =>
    dsimp only
    split_ifs <;> rfl

@[simp] theorem checkForInitializationGuards_AV (e : Expr) (st : St) :
    AV (checkForInitializationGuards e st) = AV st := by
  unfold AV
  rw [checkForInitializationGuards_vulns]

@[simp] theorem checkForInitializationGuards_AI (e : Expr) (st : St) :
    AI (checkForInitializationGuards e st) = AI st := by
  unfold checkForInitializationGuards
  cases e <;> try rfl
  case ifE c t e2 =>
    dsimp only
    split_ifs <;> simp
  case call f args =>
    dsimp only
    split_ifs <;> simp

@[simp] theorem checkExprForIssues_AV (e : Expr) (st : St) :
    AV (checkExprForIssues e st) = AV st := by
  unfold checkExprForIssues
  cases e <;> try rfl
  case field b m =>
    dsimp only
    cases b <;> dsimp only <;> split_ifs <;> simp [AV, addWarning, addVulnerability,
      List.countP_append, List.countP_cons]
  case methodCall r m args =>
    dsimp only
    split_ifs <;> simp [AV, addWarning, addVulnerability, List.countP_append,
      List.countP_cons]
  case cast inner t =>
    dsimp only
    split_ifs <;> simp [AV, addWarning, List.countP_append, List.countP_cons]
  case call f args =>
    dsimp only
    split_ifs <;> simp [AV, addWarning, addVulnerability, List.countP_append,
      List.countP_cons]

@[simp] theorem checkExprForIssues_info (e : Expr) (st : St) :
    (checkExprForIssues e st).info = st.info := by
  unfold checkExprForIssues
  cases e <;> try rfl
  case field b m =>
    dsimp only
    cases b <;> dsimp only <;> split_ifs <;> rfl
  case methodCall r m args =>
    dsimp only
    split_ifs <;> rfl
  case cast inner t =>
    dsimp only
    split_ifs <;> rfl
  case call f args =>
    dsimp only
    split_ifs <;> rfl

@[simp] theorem checkExprForIssues_AI (e : Expr) (st : St) :
    AI (checkExprForIssues e st) = AI st := by
  unfold AI
  rw [checkExprForIssues_info]

@[simp] theorem checkLargeIntegerLiteral_vulns (v : Nat) (st : St) :
    (checkLargeIntegerLiteral v st).vulnerabilities = st.vulnerabilities := by
  unfold checkLargeIntegerLiteral
  cases base10ParseU64 v
  · rfl
  · dsimp only
    split_ifs <;> rfl

@[simp] theorem checkLargeIntegerLiteral_info (v : Nat) (st : St) :
    (checkLargeIntegerLiteral v st).info = st.info := by
  unfold checkLargeIntegerLiteral
  cases base10ParseU64 v
  · rfl
  · dsimp only
    split_ifs <;> rfl

@[simp] theorem checkLargeIntegerLiteral_AV (v : Nat) (st : St) :
    AV (checkLargeIntegerLiteral v st) = AV st := by
  unfold AV
  rw [checkLargeIntegerLiteral_vulns]

@[simp] theorem checkLargeIntegerLiteral_AI (v : Nat) (st : St) :
    AI (checkLargeIntegerLiteral v st) = AI st := by
  unfold AI
  rw [checkLargeIntegerLiteral_info]

theorem checkArithmeticOperation_AV (hoc : Bool) (op : BOp) (st : St) :
    AV (checkArithmeticOperation hoc op st)
      = AV st + (if hoc then 0 else if isArithOp op then 1 else 0) := by
  unfold checkArithmeticOperation
  cases op <;> cases hoc <;>
    simp [AV, addVulnerability, addInfo, isArithOp, List.countP_append,
      List.countP_cons, isArithVuln] <;> rfl

theorem checkArithmeticOperation_AI (hoc : Bool) (op : BOp) (st : St) :
    AI (checkArithmeticOperation hoc op st)
      = AI st + (if hoc then (if isArithOp op then 1 else 0) else 0) := by
  unfold checkArithmeticOperation
  cases op <;> cases hoc <;>
    simp [AI, addVulnerability, addInfo, isArithOp, List.countP_append,
      List.countP_cons, isArithInfo]

/-- The guarded arithmetic dispatch in the overridden `visit_expr` equals the
unguarded `check_arithmetic_operation` (which ignores other operators). -/
theorem matchArith_eq (hoc : Bool) (op : BOp) (st : St) :
    (match op with
      | .add | .sub | .mul => checkArithmeticOperation hoc op st
      | _ => st) = checkArithmeticOperation hoc op st := by
  cases op <;> simp [checkArithmeticOperation]

@[simp] theorem initGuardStep_AV (b : Bool) (e : Expr) (st : St) :
    AV (if b then checkForInitializationGuards e st else st) = AV st := by
  split_ifs <;> simp

@[simp] theorem initGuardStep_AI (b : Bool) (e : Expr) (st : St) :
    AI (if b then checkForInitializationGuards e st else st) = AI st := by
  split_ifs <;> simp

-- MARK: Counter invariance under the state-flag updates of `check_function`

@[simp] theorem AV_resetRA (st : St) :
    AV { st with has_remaining_accounts_access := false,
                 has_remaining_accounts_validation := false } = AV st := rfl

@[simp] theorem AI_resetRA (st : St) :
    AI { st with has_remaining_accounts_access := false,
                 has_remaining_accounts_validation := false } = AI st := rfl

@[simp] theorem AV_setInit (b : Bool) (st : St) :
    AV { st with current_function_is_init := b } = AV st := rfl

@[simp] theorem AI_setInit (b : Bool) (st : St) :
    AI { st with current_function_is_init := b } = AI st := rfl

@[simp] theorem AV_setBump (b : Bool) (st : St) :
    AV { st with current_function_has_bump_param := b } = AV st := rfl

@[simp] theorem AI_setBump (b : Bool) (st : St) :
    AI { st with current_function_has_bump_param := b } = AI st := rfl

@[simp] theorem AV_resetCpi (st : St) :
    AV { st with cpi_performed := false, accessed_accounts := [] } = AV st := rfl

@[simp] theorem AI_resetCpi (st : St) :
    AI { st with cpi_performed := false, accessed_accounts := [] } = AI st := rfl

@[simp] theorem AV_resetBump (st : St) :
    AV { st with non_canonical_bump_detected := false,
                 current_function_has_bump_param := false } = AV st := rfl

@[simp] theorem AI_resetBump (st : St) :
    AI { st with non_canonical_bump_detected := false,
                 current_function_has_bump_param := false } = AI st := rfl

@[simp] theorem AV_ite_ra (c : Prop) [Decidable c] (st : St) :
    AV (if c then addVulnerability .High dRemainingAccounts st else st) = AV st := by
  split_ifs <;> simp

@[simp] theorem AI_ite_ra (c : Prop) [Decidable c] (st : St) :
    AI (if c then addVulnerability .High dRemainingAccounts st else st) = AI st := by
  split_ifs <;> simp

@[simp] theorem AV_ite_initChecks (c : Prop) [Decidable c] (body : StmtList) (st : St) :
    AV (if c then checkForInitChecks body st else st) = AV st := by
  split_ifs <;> simp

@[simp] theorem AI_ite_initChecks (c : Prop) [Decidable c] (body : StmtList) (st : St) :
    AI (if c then checkForInitChecks body st else st) = AI st := by
  split_ifs <;> simp

@[simp] theorem AV_ite_cpiReload (c : Prop) [Decidable c] (st : St) :
    AV (if c then addVulnerability .Critical dCpiReload st else st) = AV st := by
  split_ifs <;> simp

@[simp] theorem AI_ite_cpiReload (c : Prop) [Decidable c] (st : St) :
    AI (if c then addVulnerability .Critical dCpiReload st else st) = AI st := by
  split_ifs <;> simp

@[simp] theorem AV_ite_bumpSeed (c : Prop) [Decidable c] (st : St) :
    AV (if c then addVulnerability .Critical dBumpSeed st else st) = AV st := by
  split_ifs <;> simp

@[simp] theorem AI_ite_bumpSeed (c : Prop) [Decidable c] (st : St) :
    AI (if c then addVulnerability .Critical dBumpSeed st else st) = AI st := by
  split_ifs <;> simp

-- MARK: Arithmetic findings are emitted once per add/sub/mul occurrence

mutual
theorem visitExpr_arith (hoc : Bool) (e : Expr) (st : St) :
    AV (visitExpr hoc e st) = AV st + (if hoc then 0 else arithCountE e)
      ∧ AI (visitExpr hoc e st) = AI st + (if hoc then arithCountE e else 0) := by
  cases e with
  | path t => constructor <;> simp [visitExpr, arithCountE]
  | litInt v => constructor <;> simp [visitExpr, arithCountE]
  | field b m =>
      have h1 := fun st => (visitExpr_arith hoc b st).1
      have h2 := fun st => (visitExpr_arith hoc b st).2
      constructor <;> simp [visitExpr, arithCountE, h1, h2]
  | methodCall r m args =>
      have h1 := fun st => (visitExpr_arith hoc r st).1
      have h2 := fun st => (visitExpr_arith hoc r st).2
      have h3 := fun st => (visitExprArgs_arith hoc args st).1
      have h4 := fun st => (visitExprArgs_arith hoc args st).2
      constructor <;> simp [visitExpr, arithCountE, h1, h2, h3, h4] <;>
        cases hoc <;> simp <;> omega
  | call f args =>
      have h1 := fun st => (visitExpr_arith hoc f st).1
      have h2 := fun st => (visitExpr_arith hoc f st).2
      have h3 := fun st => (visitExprArgs_arith hoc args st).1
      have h4 := fun st => (visitExprArgs_arith hoc args st).2
      constructor <;> simp [visitExpr, arithCountE, h1, h2, h3, h4] <;>
        cases hoc <;> simp <;> omega
  | binary op l r =>
      have h1 := fun st => (freeVisitExpr_arith hoc l st).1
      have h2 := fun st => (freeVisitExpr_arith hoc l st).2
      have h3 := fun st => (freeVisitExpr_arith hoc r st).1
      have h4 := fun st => (freeVisitExpr_arith hoc r st).2
      constructor <;>
        simp [visitExpr, matchArith_eq, arithCountE, h1, h2, h3, h4,
          checkArithmeticOperation_AV, checkArithmeticOperation_AI] <;>
        cases hoc <;> simp <;> omega
  | cast inner t =>
      have h1 := fun st => (visitExpr_arith hoc inner st).1
      have h2 := fun st => (visitExpr_arith hoc inner st).2
      constructor <;> simp [visitExpr, arithCountE, h1, h2]
  | ifE c t e2 =>
      have h1 := fun st => (visitExpr_arith hoc c st).1
      have h2 := fun st => (visitExpr_arith hoc c st).2
      have h3 := fun st => (visitStmtList_arith hoc t st).1
      have h4 := fun st => (visitStmtList_arith hoc t st).2
      have h5 := fun st => (visitOptExpr_arith hoc e2 st).1
      have h6 := fun st => (visitOptExpr_arith hoc e2 st).2
      constructor <;> simp [visitExpr, arithCountE, h1, h2, h3, h4, h5, h6] <;>
        cases hoc <;> simp <;> omega
  | blockE b =>
      have h1 := fun st => (visitStmtList_arith hoc b st).1
      have h2 := fun st => (visitStmtList_arith hoc b st).2
      constructor <;> simp [visitExpr, arithCountE, h1, h2]

theorem freeVisitExpr_arith (hoc : Bool) (e : Expr) (st : St) :
    AV (freeVisitExpr hoc e st) = AV st + (if hoc then 0 else arithCountE e)
      ∧ AI (freeVisitExpr hoc e st) = AI st + (if hoc then arithCountE e else 0) := by
  cases e with
  | path t => constructor <;> simp [freeVisitExpr, arithCountE]
  | litInt v => constructor <;> simp [freeVisitExpr, arithCountE]
  | field b m =>
      have h1 := fun st => (visitExpr_arith hoc b st).1
      have h2 := fun st => (visitExpr_arith hoc b st).2
      constructor <;> simp [freeVisitExpr, arithCountE, h1, h2]
  | methodCall r m args =>
      have h1 := fun st => (visitExpr_arith hoc r st).1
      have h2 := fun st => (visitExpr_arith hoc r st).2
      have h3 := fun st => (visitExprArgs_arith hoc args st).1
      have h4 := fun st => (visitExprArgs_arith hoc args st).2
      constructor <;> simp [freeVisitExpr, arithCountE, h1, h2, h3, h4] <;>
        cases hoc <;> simp <;> omega
  | call f args =>
      have h1 := fun st => (visitExpr_arith hoc f st).1
      have h2 := fun st => (visitExpr_arith hoc f st).2
      have h3 := fun st => (visitExprArgs_arith hoc args st).1
      have h4 := fun st => (visitExprArgs_arith hoc args st).2
      constructor <;> simp [freeVisitExpr, arithCountE, h1, h2, h3, h4] <;>
        cases hoc <;> simp <;> omega
  | binary op l r =>
      have h1 := fun st => (visitExpr_arith hoc l st).1
      have h2 := fun st => (visitExpr_arith hoc l st).2
      have h3 := fun st => (visitExpr_arith hoc r st).1
      have h4 := fun st => (visitExpr_arith hoc r st).2
      constructor <;>
        simp [freeVisitExpr, arithCountE, h1, h2, h3, h4,
          checkArithmeticOperation_AV, checkArithmeticOperation_AI] <;>
        cases hoc <;> simp <;> omega
  | cast inner t =>
      have h1 := fun st => (visitExpr_arith hoc inner st).1
      have h2 := fun st => (visitExpr_arith hoc inner st).2
      constructor <;> simp [freeVisitExpr, arithCountE, h1, h2]
  | ifE c t e2 =>
      have h1 := fun st => (visitExpr_arith hoc c st).1
      have h2 := fun st => (visitExpr_arith hoc c st).2
      have h3 := fun st => (visitStmtList_arith hoc t st).1
      have h4 := fun st => (visitStmtList_arith hoc t st).2
      have h5 := fun st => (visitOptExpr_arith hoc e2 st).1
      have h6 := fun st => (visitOptExpr_arith hoc e2 st).2
      constructor <;> simp [freeVisitExpr, arithCountE, h1, h2, h3, h4, h5, h6] <;>
        cases hoc <;> simp <;> omega
  | blockE b =>
      have h1 := fun st => (visitStmtList_arith hoc b st).1
      have h2 := fun st => (visitStmtList_arith hoc b st).2
      constructor <;> simp [freeVisitExpr, arithCountE, h1, h2]

theorem visitExprArgs_arith (hoc : Bool) (es : ExprList) (st : St) :
    AV (visitExprArgs hoc es st) = AV st + (if hoc then 0 else arithCountA es)
      ∧ AI (visitExprArgs hoc es st) = AI st + (if hoc then arithCountA es else 0) := by
  cases es with
  | nil => constructor <;> simp [visitExprArgs, arithCountA]
  | cons e rest =>
      have h1 := fun st => (visitExpr_arith hoc e st).1
      have h2 := fun st => (visitExpr_arith hoc e st).2
      have h3 := fun st => (visitExprArgs_arith hoc rest st).1
      have h4 := fun st => (visitExprArgs_arith hoc rest st).2
      constructor <;> simp [visitExprArgs, arithCountA, h1, h2, h3, h4] <;>
        cases hoc <;> simp <;> omega

theorem visitOptExpr_arith (hoc : Bool) (oe : OptExpr) (st : St) :
    AV (visitOptExpr hoc oe st) = AV st + (if hoc then 0 else arithCountO oe)
      ∧ AI (visitOptExpr hoc oe st) = AI st + (if hoc then arithCountO oe else 0) := by
  cases oe with
  | none => constructor <;> simp [visitOptExpr, arithCountO]
  | some e =>
      have h1 := fun st => (visitExpr_arith hoc e st).1
      have h2 := fun st => (visitExpr_arith hoc e st).2
      constructor <;> simp [visitOptExpr, arithCountO, h1, h2]

theorem visitStmt_arith (hoc : Bool) (s : Stmt) (st : St) :
    AV (visitStmt hoc s st) = AV st + (if hoc then 0 else arithCountStmt s)
      ∧ AI (visitStmt hoc s st) = AI st + (if hoc then arithCountStmt s else 0) := by
  cases s with
  | exprS e =>
      have h1 := fun st => (visitExpr_arith hoc e st).1
      have h2 := fun st => (visitExpr_arith hoc e st).2
      constructor <;> simp [visitStmt, arithCountStmt, h1, h2]
  | localS p i =>
      have h1 := fun st => (visitOptExpr_arith hoc i st).1
      have h2 := fun st => (visitOptExpr_arith hoc i st).2
      constructor <;> simp [visitStmt, arithCountStmt, h1, h2]
  | itemS it =>
      have h1 := fun st => (visitItem_arith hoc it st).1
      have h2 := fun st => (visitItem_arith hoc it st).2
      constructor <;> simp [visitStmt, arithCountStmt, h1, h2]

theorem visitStmtList_arith (hoc : Bool) (ss : StmtList) (st : St) :
    AV (visitStmtList hoc ss st) = AV st + (if hoc then 0 else arithCountS ss)
      ∧ AI (visitStmtList hoc ss st) = AI st + (if hoc then arithCountS ss else 0) := by
  cases ss with
  | nil => constructor <;> simp [visitStmtList, arithCountS]
  | cons s rest =>
      have h1 := fun st => (visitStmt_arith hoc s st).1
      have h2 := fun st => (visitStmt_arith hoc s st).2
      have h3 := fun st => (visitStmtList_arith hoc rest st).1
      have h4 := fun st => (visitStmtList_arith hoc rest st).2
      constructor <;> simp [visitStmtList, arithCountS, h1, h2, h3, h4] <;>
        cases hoc <;> simp <;> omega

theorem visitItem_arith (hoc : Bool) (i : Item) (st : St) :
    AV (visitItem hoc i st) = AV st + (if hoc then 0 else arithCountI i)
      ∧ AI (visitItem hoc i st) = AI st + (if hoc then arithCountI i else 0) := by
  cases i with
  | fnI name params body =>
      have h1 := fun st => (visitStmtList_arith hoc body st).1
      have h2 := fun st => (visitStmtList_arith hoc body st).2
      constructor <;>
        simp [visitItem, arithCountI, h1, h2, AV, AI, vulns_ite, info_ite, countP_ite,
          List.countP_append, List.countP_cons, addVulnerability, addWarning, addInfo,
          checkForInitChecks, checkFunctionNamingConventions]
  | structI sd => constructor <;> simp [visitItem, arithCountI]
  | enumI n => constructor <;> simp [visitItem, arithCountI]
  | modI items =>
      have h1 := fun st => (visitItemList_arith hoc items st).1
      have h2 := fun st => (visitItemList_arith hoc items st).2
      constructor <;> simp [visitItem, arithCountI, h1, h2]

theorem visitItemList_arith (hoc : Bool) (is : ItemList) (st : St) :
    AV (visitItemList hoc is st) = AV st + (if hoc then 0 else arithCountL is)
      ∧ AI (visitItemList hoc is st) = AI st + (if hoc then arithCountL is else 0) := by
  cases is with
  | nil => constructor <;> simp [visitItemList, arithCountL]
  | cons i rest =>
      have h1 := fun st => (visitItem_arith hoc i st).1
      have h2 := fun st => (visitItem_arith hoc i st).2
      have h3 := fun st => (visitItemList_arith hoc rest st).1
      have h4 := fun st => (visitItemList_arith hoc rest st).2
      constructor <;> simp [visitItemList, arithCountL, h1, h2, h3, h4] <;>
        cases hoc <;> simp <;> omega
end


-- MARK: The reinitialization-check vulnerability is emitted only by
-- `check_for_init_checks`; expression traversal of an item-free body never
-- emits it and never changes the init classification flag

/-- Reinitialization-vulnerability count of a state. -/
@[reducible] def IV (st : St) : Nat := st.vulnerabilities.countP isInitVuln

@[simp] theorem IV_addWarning (d : String) (st : St) :
    IV (addWarning d st) = IV st := rfl

@[simp] theorem IV_addInfo (d : String) (st : St) :
    IV (addInfo d st) = IV st := rfl

@[simp] theorem IV_addVulnerability_critical (d : String) (st : St) :
    IV (addVulnerability .Critical d st) = IV st := by
  simp [IV, addVulnerability, List.countP_append, List.countP_cons]

@[simp] theorem IV_addVulnerability_arith (opStr : String) (st : St) :
    IV (addVulnerability .High (dArithVuln opStr) st) = IV st := by
  simp [IV, addVulnerability, List.countP_append, List.countP_cons]

@[simp] theorem isInit_addVulnerability (s : Severity) (d : String) (st : St) :
    (addVulnerability s d st).current_function_is_init
      = st.current_function_is_init := rfl

@[simp] theorem isInit_addWarning (d : String) (st : St) :
    (addWarning d st).current_function_is_init = st.current_function_is_init := rfl

@[simp] theorem isInit_addInfo (d : String) (st : St) :
    (addInfo d st).current_function_is_init = st.current_function_is_init := rfl

@[simp] theorem checkForInitializationGuards_IV (e : Expr) (st : St) :
    IV (checkForInitializationGuards e st) = IV st := by
  unfold IV
  rw [checkForInitializationGuards_vulns]

@[simp] theorem checkForInitializationGuards_isInit (e : Expr) (st : St) :
    (checkForInitializationGuards e st).current_function_is_init
      = st.current_function_is_init := by
  unfold checkForInitializationGuards
  cases e <;> try rfl
  case ifE c t e2 =>
    dsimp only
    split_ifs <;> rfl
  case call f args =>
    dsimp only
    split_ifs <;> rfl

@[simp] theorem checkForRemainingAccountsValidation_IV (e : Expr) (st : St) :
    IV (checkForRemainingAccountsValidation e st) = IV st := by
  unfold IV
  rw [checkForRemainingAccountsValidation_vulns]

@[simp] theorem checkForRemainingAccountsValidation_isInit (e : Expr) (st : St) :
    (checkForRemainingAccountsValidation e st).current_function_is_init
      = st.current_function_is_init := by
  unfold checkForRemainingAccountsValidation
  cases e <;> try rfl
  case binary op l r =>
    cases op <;> try rfl
    cases l <;> try rfl
    case field b m =>
      dsimp only
      split_ifs <;> rfl
  case methodCall r m args =>
    dsimp only
    split_ifs <;> rfl

@[simp] theorem checkExprForIssues_IV (e : Expr) (st : St) :
    IV (checkExprForIssues e st) = IV st := by
  unfold checkExprForIssues
  cases e <;> try rfl
  case field b m =>
    dsimp only
    cases b <;> dsimp only <;> split_ifs <;> simp [IV, addVulnerability, addWarning,
      List.countP_append, List.countP_cons]
  case methodCall r m args =>
    dsimp only
    split_ifs <;> simp [IV, addVulnerability, addWarning, List.countP_append,
      List.countP_cons]
  case cast inner t =>
    dsimp only
    split_ifs <;> simp [IV, addWarning, List.countP_append, List.countP_cons]
  case call f args =>
    dsimp only
    split_ifs <;> simp [IV, addVulnerability, addWarning, List.countP_append,
      List.countP_cons]

@[simp] theorem checkExprForIssues_isInit (e : Expr) (st : St) :
    (checkExprForIssues e st).current_function_is_init
      = st.current_function_is_init := by
  unfold checkExprForIssues
  cases e <;> try rfl
  case field b m =>
    dsimp only
    cases b <;> dsimp only <;> split_ifs <;> rfl
  case methodCall r m args =>
    dsimp only
    split_ifs <;> rfl
  case cast inner t =>
    dsimp only
    split_ifs <;> rfl
  case call f args =>
    dsimp only
    split_ifs <;> rfl

@[simp] theorem checkLargeIntegerLiteral_IV (v : Nat) (st : St) :
    IV (checkLargeIntegerLiteral v st) = IV st := by
  unfold IV
  rw [checkLargeIntegerLiteral_vulns]

@[simp] theorem checkLargeIntegerLiteral_isInit (v : Nat) (st : St) :
    (checkLargeIntegerLiteral v st).current_function_is_init
      = st.current_function_is_init := by
  unfold checkLargeIntegerLiteral
  cases base10ParseU64 v
  · rfl
  · dsimp only
    split_ifs <;> rfl

@[simp] theorem checkArithmeticOperation_IV (hoc : Bool) (op : BOp) (st : St) :
    IV (checkArithmeticOperation hoc op st) = IV st := by
  unfold checkArithmeticOperation
  cases op <;> cases hoc <;> simp

@[simp] theorem checkArithmeticOperation_isInit (hoc : Bool) (op : BOp) (st : St) :
    (checkArithmeticOperation hoc op st).current_function_is_init
      = st.current_function_is_init := by
  unfold checkArithmeticOperation
  cases op <;> cases hoc <;> simp

@[simp] theorem initGuardStep_IV (b : Bool) (e : Expr) (st : St) :
    IV (if b then checkForInitializationGuards e st else st) = IV st := by
  split_ifs <;> simp

@[simp] theorem initGuardStep_isInit (b : Bool) (e : Expr) (st : St) :
    (if b then checkForInitializationGuards e st else st).current_function_is_init
      = st.current_function_is_init := by
  split_ifs <;> simp

mutual
theorem visitExpr_noItem (hoc : Bool) (e : Expr) (st : St)
    (h : hasItemE e = false) :
    IV (visitExpr hoc e st) = IV st
      ∧ (visitExpr hoc e st).current_function_is_init
          = st.current_function_is_init := by
  cases e with
  | path t => constructor <;> simp [visitExpr]
  | litInt v => constructor <;> simp [visitExpr]
  | field b m =>
      simp only [hasItemE] at h
      have h1 := fun st => (visitExpr_noItem hoc b st h).1
      have h2 := fun st => (visitExpr_noItem hoc b st h).2
      constructor <;> simp [visitExpr, h1, h2]
  | methodCall r m args =>
      simp only [hasItemE, Bool.or_eq_false_iff] at h
      have h1 := fun st => (visitExpr_noItem hoc r st h.1).1
      have h2 := fun st => (visitExpr_noItem hoc r st h.1).2
      have h3 := fun st => (visitExprArgs_noItem hoc args st h.2).1
      have h4 := fun st => (visitExprArgs_noItem hoc args st h.2).2
      constructor <;> simp [visitExpr, h1, h2, h3, h4]
  | call f args =>
      simp only [hasItemE, Bool.or_eq_false_iff] at h
      have h1 := fun st => (visitExpr_noItem hoc f st h.1).1
      have h2 := fun st => (visitExpr_noItem hoc f st h.1).2
      have h3 := fun st => (visitExprArgs_noItem hoc args st h.2).1
      have h4 := fun st => (visitExprArgs_noItem hoc args st h.2).2
      constructor <;> simp [visitExpr, h1, h2, h3, h4]
  | binary op l r =>
      simp only [hasItemE, Bool.or_eq_false_iff] at h
      have h1 := fun st => (freeVisitExpr_noItem hoc l st h.1).1
      have h2 := fun st => (freeVisitExpr_noItem hoc l st h.1).2
      have h3 := fun st => (freeVisitExpr_noItem hoc r st h.2).1
      have h4 := fun st => (freeVisitExpr_noItem hoc r st h.2).2
      constructor <;> simp [visitExpr, matchArith_eq, h1, h2, h3, h4]
  | cast inner t =>
      simp only [hasItemE] at h
      have h1 := fun st => (visitExpr_noItem hoc inner st h).1
      have h2 := fun st => (visitExpr_noItem hoc inner st h).2
      constructor <;> simp [visitExpr, h1, h2]
  | ifE c t e2 =>
      simp only [hasItemE, Bool.or_eq_false_iff] at h
      have h1 := fun st => (visitExpr_noItem hoc c st h.1.1).1
      have h2 := fun st => (visitExpr_noItem hoc c st h.1.1).2
      have h3 := fun st => (visitStmtList_noItem hoc t st h.1.2).1
      have h4 := fun st => (visitStmtList_noItem hoc t st h.1.2).2
      have h5 := fun st => (visitOptExpr_noItem hoc e2 st h.2).1
      have h6 := fun st => (visitOptExpr_noItem hoc e2 st h.2).2
      constructor <;> simp [visitExpr, h1, h2, h3, h4, h5, h6]
  | blockE b =>
      simp only [hasItemE] at h
      have h1 := fun st => (visitStmtList_noItem hoc b st h).1
      have h2 := fun st => (visitStmtList_noItem hoc b st h).2
      constructor <;> simp [visitExpr, h1, h2]

theorem freeVisitExpr_noItem (hoc : Bool) (e : Expr) (st : St)
    (h : hasItemE e = false) :
    IV (freeVisitExpr hoc e st) = IV st
      ∧ (freeVisitExpr hoc e st).current_function_is_init
          = st.current_function_is_init := by
  cases e with
  | path t => constructor <;> simp [freeVisitExpr]
  | litInt v => constructor <;> simp [freeVisitExpr]
  | field b m =>
      simp only [hasItemE] at h
      have h1 := fun st => (visitExpr_noItem hoc b st h).1
      have h2 := fun st => (visitExpr_noItem hoc b st h).2
      constructor <;> simp [freeVisitExpr, h1, h2]
  | methodCall r m args =>
      simp only [hasItemE, Bool.or_eq_false_iff] at h
      have h1 := fun st => (visitExpr_noItem hoc r st h.1).1
      have h2 := fun st => (visitExpr_noItem hoc r st h.1).2
      have h3 := fun st => (visitExprArgs_noItem hoc args st h.2).1
      have h4 := fun st => (visitExprArgs_noItem hoc args st h.2).2
      constructor <;> simp [freeVisitExpr, h1, h2, h3, h4]
  | call f args =>
      simp only [hasItemE, Bool.or_eq_false_iff] at h
      have h1 := fun st => (visitExpr_noItem hoc f st h.1).1
      have h2 := fun st => (visitExpr_noItem hoc f st h.1).2
      have h3 := fun st => (visitExprArgs_noItem hoc args st h.2).1
      have h4 := fun st => (visitExprArgs_noItem hoc args st h.2).2
      constructor <;> simp [freeVisitExpr, h1, h2, h3, h4]
  | binary op l r =>
      simp only [hasItemE, Bool.or_eq_false_iff] at h
      have h1 := fun st => (visitExpr_noItem hoc l st h.1).1
      have h2 := fun st => (visitExpr_noItem hoc l st h.1).2
      have h3 := fun st => (visitExpr_noItem hoc r st h.2).1
      have h4 := fun st => (visitExpr_noItem hoc r st h.2).2
      constructor <;> simp [freeVisitExpr, h1, h2, h3, h4]
  | cast inner t =>
      simp only [hasItemE] at h
      have h1 := fun st => (visitExpr_noItem hoc inner st h).1
      have h2 := fun st => (visitExpr_noItem hoc inner st h).2
      constructor <;> simp [freeVisitExpr, h1, h2]
  | ifE c t e2 =>
      simp only [hasItemE, Bool.or_eq_false_iff] at h
      have h1 := fun st => (visitExpr_noItem hoc c st h.1.1).1
      have h2 := fun st => (visitExpr_noItem hoc c st h.1.1).2
      have h3 := fun st => (visitStmtList_noItem hoc t st h.1.2).1
      have h4 := fun st => (visitStmtList_noItem hoc t st h.1.2).2
      have h5 := fun st => (visitOptExpr_noItem hoc e2 st h.2).1
      have h6 := fun st => (visitOptExpr_noItem hoc e2 st h.2).2
      constructor <;> simp [freeVisitExpr, h1, h2, h3, h4, h5, h6]
  | blockE b =>
      simp only [hasItemE] at h
      have h1 := fun st => (visitStmtList_noItem hoc b st h).1
      have h2 := fun st => (visitStmtList_noItem hoc b st h).2
      constructor <;> simp [freeVisitExpr, h1, h2]

theorem visitExprArgs_noItem (hoc : Bool) (es : ExprList) (st : St)
    (h : hasItemA es = false) :
    IV (visitExprArgs hoc es st) = IV st
      ∧ (visitExprArgs hoc es st).current_function_is_init
          = st.current_function_is_init := by
  cases es with
  | nil => constructor <;> simp [visitExprArgs]
  | cons e rest =>
      simp only [hasItemA, Bool.or_eq_false_iff] at h
      have h1 := fun st => (visitExpr_noItem hoc e st h.1).1
      have h2 := fun st => (visitExpr_noItem hoc e st h.1).2
      have h3 := fun st => (visitExprArgs_noItem hoc rest st h.2).1
      have h4 := fun st => (visitExprArgs_noItem hoc rest st h.2).2
      constructor <;> simp [visitExprArgs, h1, h2, h3, h4]

theorem visitOptExpr_noItem (hoc : Bool) (oe : OptExpr) (st : St)
    (h : hasItemO oe = false) :
    IV (visitOptExpr hoc oe st) = IV st
      ∧ (visitOptExpr hoc oe st).current_function_is_init
          = st.current_function_is_init := by
  cases oe with
  | none => constructor <;> simp [visitOptExpr]
  | some e =>
      simp only [hasItemO] at h
      have h1 := fun st => (visitExpr_noItem hoc e st h).1
      have h2 := fun st => (visitExpr_noItem hoc e st h).2
      constructor <;> simp [visitOptExpr, h1, h2]

theorem visitStmt_noItem (hoc : Bool) (s : Stmt) (st : St)
    (h : hasItemStmt s = false) :
    IV (visitStmt hoc s st) = IV st
      ∧ (visitStmt hoc s st).current_function_is_init
          = st.current_function_is_init := by
  cases s with
  | exprS e =>
      simp only [hasItemStmt] at h
      have h1 := fun st => (visitExpr_noItem hoc e st h).1
      have h2 := fun st => (visitExpr_noItem hoc e st h).2
      constructor <;> simp [visitStmt, h1, h2]
  | localS p i =>
      simp only [hasItemStmt] at h
      have h1 := fun st => (visitOptExpr_noItem hoc i st h).1
      have h2 := fun st => (visitOptExpr_noItem hoc i st h).2
      constructor <;> simp [visitStmt, h1, h2]
  | itemS it => simp [hasItemStmt] at h

theorem visitStmtList_noItem (hoc : Bool) (ss : StmtList) (st : St)
    (h : hasItemS ss = false) :
    IV (visitStmtList hoc ss st) = IV st
      ∧ (visitStmtList hoc ss st).current_function_is_init
          = st.current_function_is_init := by
  cases ss with
  | nil => constructor <;> simp [visitStmtList]
  | cons s rest =>
      simp only [hasItemS, Bool.or_eq_false_iff] at h
      have h1 := fun st => (visitStmt_noItem hoc s st h.1).1
      have h2 := fun st => (visitStmt_noItem hoc s st h.1).2
      have h3 := fun st => (visitStmtList_noItem hoc rest st h.2).1
      have h4 := fun st => (visitStmtList_noItem hoc rest st h.2).2
      constructor <;> simp [visitStmtList, h1, h2, h3, h4]
end

-- MARK: Claim C3 — arithmetic findings, one per occurrence, never both

/-- C3: for every expression, visiting it emits exactly one High "Potential
arithmetic overflow/underflow" vulnerability per add/sub/mul occurrence when
the overflow-checking fact is false (and no arithmetic Info), and exactly
one "Arithmetic operation with runtime overflow protection" Info item per
occurrence when the fact is true (and no arithmetic vulnerability) — never
both for the same occurrence. -/
theorem c3_arith_one_finding_per_occurrence (hoc : Bool) (e : Expr) (st : St) :
    (visitExpr hoc e st).vulnerabilities.countP isArithVuln
        = st.vulnerabilities.countP isArithVuln + (if hoc then 0 else arithCountE e)
      ∧ (visitExpr hoc e st).info.countP isArithInfo
        = st.info.countP isArithInfo + (if hoc then arithCountE e else 0) :=
  visitExpr_arith hoc e st

-- MARK: Claim C2 — init-named functions and the reinitialization check

/-- The body of an init-named function holding only a nested helper
function. -/
def c2NestedBody : StmtList :=
  .cons (.itemS (.fnI "helper" [] (.cons (.exprS (.path "x")) .nil))) .nil

/-- C2 counterexample: an init-named function whose body lacks
"is_initialized" but contains a nested (non-init) function yields zero
"Initialization function without reinitialization check" vulnerabilities,
not exactly one — the nested `check_function` call clears
`current_function_is_init` at its own exit, so the enclosing function's
exit check is skipped. -/
theorem c2_nested_item_suppresses_init_check :
    scontains "initialize_vault" "init" = true
      ∧ scontains (renderStmtsBraced c2NestedBody) "is_initialized" = false
      ∧ (visitItem false (.fnI "initialize_vault" [] c2NestedBody)
          St.start).vulnerabilities.countP isInitVuln = 0 := by
  refine ⟨by decide, by decide, by decide⟩

/-- C2 amended: a function item whose identifier contains "initialize",
"init", or "create" (case-sensitive) and whose body holds no nested items
yields exactly one High "Initialization function without reinitialization
check" vulnerability when the rendered body tokens lack "is_initialized"
together with "if" or "assert", and none otherwise (in particular an
`if is_initialized { … }` guard suppresses it). -/
theorem c2_init_function_reinit_check (hoc : Bool) (name : String)
    (params : List String) (body : StmtList) (st : St)
    (hname : (scontains name "initialize" || scontains name "init"
        || scontains name "create") = true)
    (hni : hasItemS body = false) :
    (visitItem hoc (.fnI name params body) st).vulnerabilities.countP isInitVuln
      = st.vulnerabilities.countP isInitVuln
        + (if scontains (renderStmtsBraced body) "is_initialized"
              && (scontains (renderStmtsBraced body) "if"
                || scontains (renderStmtsBraced body) "assert")
           then 0 else 1) := by
  have h1 := fun st2 => (visitStmtList_noItem hoc body st2 hni).1
  have h2 := fun st2 => (visitStmtList_noItem hoc body st2 hni).2
  rw [visitItem_fnI]
  simp only [checkFunction]
  simp [checkForInitChecks, checkFunctionNamingConventions, IV, h1, h2, hname,
    vulns_ite, isInit_ite, countP_ite, List.countP_append, List.countP_cons,
    addVulnerability, addWarning, addInfo]
  cases hA : scontains (renderStmtsBraced body) "is_initialized" <;>
    cases hB : scontains (renderStmtsBraced body) "if" <;>
      cases hC : scontains (renderStmtsBraced body) "assert" <;>
        simp [hA, hB, hC]

/-- Witness for C2 at a concrete init function without a guard. -/
theorem c2_init_function_reinit_check_witness :
    (visitItem false (.fnI "initialize_vault" []
        (.cons (.exprS (.path "x")) .nil)) St.start).vulnerabilities.countP isInitVuln
      = 1 := by
  have h := c2_init_function_reinit_check false "initialize_vault" []
    (.cons (.exprS (.path "x")) .nil) St.start (by decide) (by decide)
  rw [h]
  decide

-- MARK: Claim C1 — the CPI/reload exit check is dead code

/-- The body of a function that performs a CPI (`invoke(…)`) and then reads
account data (`ctx.accounts.balance`). -/
def c1Body : StmtList :=
  .cons (.exprS (.call (.path "invoke")
      (.cons (.path "ix") (.cons (.path "accs") .nil))))
    (.cons (.exprS (.field (.field (.path "ctx") "accounts") "balance")) .nil)

/-- C1: visiting `c1Body` does set `cpi_performed` and does record a
subsequent non-reload account access, yet `check_function` emits no
Critical "Account data accessed after CPI without reload()" vulnerability,
because it resets the CPI-tracking state immediately before the exit test
(visitor.rs lines 305–310): the check is dead code. -/
theorem c1_cpi_reload_exit_check_never_fires :
    (visitStmtList false c1Body St.start).cpi_performed = true
      ∧ (visitStmtList false c1Body St.start).accessed_accounts ≠ []
      ∧ (checkFunction false "process" [] c1Body St.start).vulnerabilities.countP
          (fun v => v.description == dCpiReload) = 0 := by
  refine ⟨by decide, by decide, by decide⟩

-- MARK: Claim C4 — per-function state isolation

/-- An enclosing function whose only statement is a nested function that
accesses `remaining_accounts` without validation. -/
def c4NestedOuter : Item :=
  .fnI "outer" []
    (.cons (.itemS (.fnI "helper" []
        (.cons (.exprS (.field (.path "ctx") "remaining_accounts")) .nil)))
      .nil)

/-- C4 counterexample: the nested `helper` alone yields one High
remaining-accounts vulnerability, but analyzing the enclosing `outer`
(which never touches `remaining_accounts` itself) yields two — the
`has_remaining_accounts_access` flag set inside the nested function is not
cleared before `check_function` returns, so it leaks to the enclosing
function's exit check, contradicting the claimed unconditional clearing and
non-leakage across nested functions. -/
theorem c4_nested_function_state_leaks :
    (visitItem false (.fnI "helper" []
        (.cons (.exprS (.field (.path "ctx") "remaining_accounts")) .nil))
        St.start).vulnerabilities.countP isRemainingAccountsVuln = 1
      ∧ (visitItem false c4NestedOuter St.start).vulnerabilities.countP
          isRemainingAccountsVuln = 2 := by
  refine ⟨by decide, by decide⟩

/-- Two sibling functions: one reads `remaining_accounts` with no
validation, the other never touches it. -/
def c4SibFile : ItemList :=
  .cons (.fnI "use_remaining" []
      (.cons (.exprS (.field (.path "ctx") "remaining_accounts")) .nil))
    (.cons (.fnI "plain_sibling" [] (.cons (.exprS (.path "x")) .nil)) .nil)

/-- Sibling order swapped. -/
def c4SibFileRev : ItemList :=
  .cons (.fnI "plain_sibling" [] (.cons (.exprS (.path "x")) .nil))
    (.cons (.fnI "use_remaining" []
        (.cons (.exprS (.field (.path "ctx") "remaining_accounts")) .nil))
      .nil)

/-- C4 amended: between sibling functions the remaining-accounts flags do
not leak, because they are reset at each function's entry (not cleared
before return): in either processing order, exactly one High
"Accessing remaining_accounts without proper validation" vulnerability is
produced, by the sibling that itself performs the access. -/
theorem c4_sibling_functions_isolated :
    (visitFile false c4SibFile St.start).vulnerabilities.countP
        isRemainingAccountsVuln = 1
      ∧ (visitFile false c4SibFileRev St.start).vulnerabilities.countP
          isRemainingAccountsVuln = 1 := by
  refine ⟨by decide, by decide⟩

-- MARK: Claim C5 — explicit bump values in account attributes

/-- An `account` attribute with the explicit non-canonical-looking bump
literal 15 (not 0, 1 or 2) in its rendered text. -/
def bump15Attr : Attr := .mk true "# [account (seeds = [SEED] , bump = 15)]"

/-- C5 counterexample: for a literal bump of 15 the claim predicts the
"verify canonical bump" Warning, but the substring tests `bump = 1` etc.
also match `bump = 15`, so the code emits the Critical
"Hardcoded non-canonical bump value detected" vulnerability and no warning
at all. -/
theorem c5_bump15_is_reported_critical :
    (checkAnchorAccountAttribute bump15Attr St.start).vulnerabilities
        = [⟨.Critical, dHardcodedBump⟩]
      ∧ (checkAnchorAccountAttribute bump15Attr St.start).warnings = [] := by
  refine ⟨by decide, by decide⟩

/-- C5 amended: for an `account` attribute whose rendered text contains an
explicit bump assignment (`bump =`, excluding the exempt texts
`bump = bump` and `bump = data.bump`), the Critical "Hardcoded
non-canonical bump value detected" vulnerability is emitted exactly when
the text contains `bump = 0`, `bump = 1` or `bump = 2` as a substring
(which also matches multi-digit literals such as 15), and the
"Custom bump value in anchor constraint" Warning is emitted otherwise —
never both. -/
theorem c5_explicit_bump_dispatch (a : Attr) (st : St)
    (hpath : a.isAccountPath = true)
    (hbump : scontains a.text "bump =" = true)
    (hnb : scontains a.text "bump = bump" = false)
    (hnd : scontains a.text "bump = data.bump" = false) :
    if scontains a.text "bump = 0" || scontains a.text "bump = 1"
        || scontains a.text "bump = 2" then
      (checkAnchorAccountAttribute a st).vulnerabilities
          = st.vulnerabilities ++ [⟨.Critical, dHardcodedBump⟩]
        ∧ (checkAnchorAccountAttribute a st).warnings = st.warnings
    else
      (checkAnchorAccountAttribute a st).vulnerabilities = st.vulnerabilities
        ∧ (checkAnchorAccountAttribute a st).warnings
            = st.warnings ++ [⟨"Custom bump value in anchor constraint"⟩] := by
  have hb : scontains a.text "bump" = true := scontains_trans hbump (by decide)
  unfold checkAnchorAccountAttribute
  dsimp only
  rw [hpath]
  simp only [Bool.not_true, Bool.false_eq_true, if_false, hb, Bool.not_true,
    Bool.and_false, Bool.false_eq_true, if_false, hbump, hnb, hnd, Bool.not_false,
    Bool.and_true, Bool.true_and, if_true]
  split_ifs with h
  · exact ⟨by simp [addVulnerability], by simp [addVulnerability]⟩
  · exact ⟨by simp [addWarning], by simp [addWarning]⟩

/-- Witness for C5 at a concrete attribute with a non-literal bump value. -/
theorem c5_explicit_bump_dispatch_witness :
    (checkAnchorAccountAttribute (.mk true "# [account (bump = vault.bump)]")
        St.start).vulnerabilities = []
      ∧ (checkAnchorAccountAttribute (.mk true "# [account (bump = vault.bump)]")
          St.start).warnings = [⟨"Custom bump value in anchor constraint"⟩] := by
  have h := c5_explicit_bump_dispatch (.mk true "# [account (bump = vault.bump)]")
    St.start (by decide) (by decide) (by decide) (by decide)
  rw [if_neg (by decide)] at h
  exact ⟨h.1.trans (by decide), h.2.trans (by decide)⟩

-- MARK: Claim C6 — unchecked AccountInfo fields

/-- `b` is a substring of `a ++ b`. -/
theorem scontains_append_right (a b : String) : scontains (a ++ b) b = true := by
  rw [scontains_iff]
  exact ⟨a.data, [], by simp [sdata_append]⟩

/-- A fold whose step is the identity on every list element is the
identity. -/
theorem foldl_id_of_step_id {alpha : Type} (g : St → alpha → St) :
    ∀ (l : List alpha), (∀ a ∈ l, ∀ st, g st a = st) →
      ∀ st : St, List.foldl g st l = st := by
  intro l
  induction l with
  | nil => intro _ _; rfl
  | cons a rest ih =>
      intro hg st
      rw [List.foldl_cons, hg a (List.mem_cons_self a rest)]
      exact ih (fun b hb st2 => hg b (List.mem_cons_of_mem a hb) st2) st

theorem checkForAtaInitIssues_id (a : Attr) (fn : String) (st : St)
    (h : a.isAccountPath = false) : checkForAtaInitIssues a fn st = st := by
  unfold checkForAtaInitIssues
  simp [h]

theorem checkAccountOwnerConstraint_vulns (f : FieldDef) (fn sn : String) (st : St) :
    (checkAccountOwnerConstraint f fn sn st).vulnerabilities = st.vulnerabilities := by
  unfold checkAccountOwnerConstraint
  dsimp only
  split_ifs <;> rfl

theorem checkAccountInitConstraints_vulns (f : FieldDef) (fn sn : String) (st : St) :
    (checkAccountInitConstraints f fn sn st).vulnerabilities = st.vulnerabilities := by
  unfold checkAccountInitConstraints
  dsimp only
  split_ifs <;> rfl

/-- When no attribute has the `account` path, `check_account_field_validation`
adds no vulnerability (only warnings). -/
theorem checkAccountFieldValidation_vulns_noAccountPath (f : FieldDef)
    (ft fn sn : String) (st : St)
    (hnp : ∀ a ∈ f.attrs, a.isAccountPath = false) :
    (checkAccountFieldValidation f ft fn sn st).vulnerabilities
      = st.vulnerabilities := by
  unfold checkAccountFieldValidation
  dsimp only
  rw [foldl_id_of_step_id
    (fun st attr => if attr.isAccountPath = true then checkAnchorAccountAttribute attr st else st)
    f.attrs (fun a ha st2 => by simp [hnp a ha])]
  rw [vulns_ite, checkAccountInitConstraints_vulns, checkAccountOwnerConstraint_vulns]
  simp

/-- With the type mentioning `AccountInfo` and no constraint-mentioning
attribute, `check_account_info_field` appends exactly the one vulnerability
of the severity dictated by the field name. -/
theorem checkAccountInfoField_vulns_unconstrained (f : FieldDef)
    (ft fn sn : String) (st : St)
    (hai : scontains ft "AccountInfo" = true)
    (hcon : (f.attrs.any fun attr => scontains attr.text "account"
        || scontains attr.text "signer" || scontains attr.text "constraint"
        || scontains attr.text "owner") = false) :
    (checkAccountInfoField f ft fn sn st).vulnerabilities
      = st.vulnerabilities
        ++ [if scontains fn "program" || scontains fn "Program"
              || sendsWith fn "_program" || sendsWith fn "_Program" then
            ⟨.Critical, "Unchecked program AccountInfo in struct " ++ sn
              ++ ": field " ++ fn ++ " - potential arbitrary CPI vulnerability"⟩
          else
            ⟨.High, "Unchecked AccountInfo in struct " ++ sn ++ ": field " ++ fn⟩] := by
  unfold checkAccountInfoField
  dsimp only
  simp only [hai, if_true, hcon, Bool.not_false, if_true]
  split_ifs <;> simp [addVulnerability]

/-- C6: a field whose type mentions `AccountInfo` and none of whose
attributes is an `account`-path attribute or mentions "account", "signer",
"constraint" or "owner" in its rendered text (e.g. a field carrying only a
`/// CHECK:` doc attribute) yields exactly one vulnerability: a Critical one
whose description mentions "arbitrary CPI" when the field name suggests a
program reference (contains "program"/"Program" or ends with
"_program"/"_Program"), and a High "Unchecked AccountInfo…" one otherwise.
(In syn, an attribute whose path is `account` always renders with "account"
in its text, so the claim's "no attribute mentioning account…" condition
subsumes the account-path condition; the model carries the two separately,
making that implication an explicit hypothesis.) -/
theorem c6_unchecked_account_info_severity (sname fname ftype : String)
    (attrs : List Attr) (st : St)
    (hai : scontains ftype "AccountInfo" = true)
    (hnc : ∀ a ∈ attrs, a.isAccountPath = false
        ∧ scontains a.text "account" = false ∧ scontains a.text "signer" = false
        ∧ scontains a.text "constraint" = false ∧ scontains a.text "owner" = false) :
    (checkAccountField (.mk (some fname) ftype attrs) sname st).vulnerabilities
        = st.vulnerabilities
          ++ [if scontains fname "program" || scontains fname "Program"
                || sendsWith fname "_program" || sendsWith fname "_Program" then
              ⟨.Critical, "Unchecked program AccountInfo in struct " ++ sname
                ++ ": field " ++ fname ++ " - potential arbitrary CPI vulnerability"⟩
            else
              ⟨.High, "Unchecked AccountInfo in struct " ++ sname ++ ": field " ++ fname⟩]
      ∧ scontains ("Unchecked program AccountInfo in struct " ++ sname
            ++ ": field " ++ fname ++ " - potential arbitrary CPI vulnerability")
          "arbitrary CPI" = true := by
  constructor
  · have hcon : (attrs.any fun attr => scontains attr.text "account"
        || scontains attr.text "signer" || scontains attr.text "constraint"
        || scontains attr.text "owner") = false := by
      rw [List.any_eq_false]
      intro a ha
      obtain ⟨-, h1, h2, h3, h4⟩ := hnc a ha
      simp [h1, h2, h3, h4]
    unfold checkAccountField
    dsimp only [FieldDef.ident, FieldDef.ty, FieldDef.attrs]
    rw [foldl_id_of_step_id (fun st attr => checkForAtaInitIssues attr fname st)
      attrs (fun a ha st2 => checkForAtaInitIssues_id a fname st2 (hnc a ha).1)]
    rw [checkAccountFieldValidation_vulns_noAccountPath
      (.mk (some fname) ftype attrs) ftype fname sname _
      (fun a ha => (hnc a ha).1)]
    exact checkAccountInfoField_vulns_unconstrained _ _ _ _ _ hai hcon
  · exact scontains_trans (scontains_append_right _ _) (by decide)

/-- Witness for C6 at the two field names of the spec scenario, each
carrying a doc attribute (the rendered form of a `/// CHECK:` comment). -/
theorem c6_unchecked_account_info_severity_witness :
    (checkAccountField (.mk (some "token_program") "AccountInfo < i >"
        [.mk false "# [doc = CHECK safe to use]"]) "Transfer" St.start).vulnerabilities
      = [⟨.Critical, "Unchecked program AccountInfo in struct Transfer: field token_program - potential arbitrary CPI vulnerability"⟩]
    ∧ (checkAccountField (.mk (some "authority_check") "AccountInfo < i >"
        [.mk false "# [doc = CHECK safe to use]"]) "Transfer" St.start).vulnerabilities
      = [⟨.High, "Unchecked AccountInfo in struct Transfer: field authority_check"⟩] := by
  constructor
  · have h := (c6_unchecked_account_info_severity "Transfer" "token_program"
      "AccountInfo < i >" [.mk false "# [doc = CHECK safe to use]"] St.start
      (by decide) (by decide)).1
    rw [h]
    decide
  · have h := (c6_unchecked_account_info_severity "Transfer" "authority_check"
      "AccountInfo < i >" [.mk false "# [doc = CHECK safe to use]"] St.start
      (by decide) (by decide)).1
    rw [h]
    decide

-- MARK: Claim C7 — large integer literals

/-- C7 counterexample: the literal 2^64 exceeds `u32::MAX` but also exceeds
`u64::MAX`, so `base10_parse::<u64>` fails and the visitor emits no
"Large integer literal detected" Warning for it. -/
theorem c7_huge_literal_not_reported :
    u32Max < 18446744073709551616
      ∧ (visitExpr false (.litInt 18446744073709551616) St.start).warnings = [] := by
  refine ⟨by decide, by decide⟩

/-- C7 amended: an integer literal whose value parses as a `u64`
(value ≤ u64::MAX) and exceeds `u32::MAX` yields exactly one
"Large integer literal detected" Warning when visited. -/
theorem c7_large_literal_warning (hoc : Bool) (v : Nat) (st : St)
    (h1 : u32Max < v) (h2 : v ≤ u64Max) :
    (visitExpr hoc (.litInt v) st).warnings
      = st.warnings ++ [⟨"Large integer literal detected: " ++ toString v⟩] := by
  simp [visitExpr, checkForInitializationGuards, checkExprForIssues,
    checkForRemainingAccountsValidation, checkLargeIntegerLiteral,
    base10ParseU64, h1, h2, addWarning]

/-- Witness for C7 at the literal 2^33. -/
theorem c7_large_literal_warning_witness :
    u32Max < 8589934592 ∧ 8589934592 ≤ u64Max
      ∧ (visitExpr false (.litInt 8589934592) St.start).warnings
          = [⟨"Large integer literal detected: 8589934592"⟩] := by
  refine ⟨by decide, by decide, ?_⟩
  have h := c7_large_literal_warning false 8589934592 St.start (by decide) (by decide)
  rw [h]
  decide

-- MARK: Claim C8 — catalog lookup is case-sensitive

/-- ASCII lowercasing of a character list (for stating case-insensitive
matching). -/
def lowerChars (l : List Char) : List Char :=
  l.map fun c => if 65 ≤ c.toNat && c.toNat ≤ 90 then Char.ofNat (c.toNat + 32) else c

/-- C8 counterexample: the keyword "overflow" matches the key "Overflow"
case-insensitively (their lowercasings contain one another), yet the lookup
returns none, because Rust `String::contains` is case-sensitive. -/
theorem c8_lookup_misses_case_insensitive_match :
    findVulnerabilityDescription "overflow" [("Overflow", Json.null)] = none
      ∧ charsContains (lowerChars "Overflow".data) (lowerChars "overflow".data)
          = true := by
  refine ⟨rfl, by decide⟩

/-- C8 amended: the lookup returns the first entry (in iteration order)
whose key contains the keyword as a case-sensitive substring, and returns
none exactly when no key contains the keyword case-sensitively. -/
theorem c8_lookup_case_sensitive (key : String) (descs : List (String × Json)) :
    (findVulnerabilityDescription key descs).isSome
      = descs.any (fun kv => scontains kv.1 key) := by
  induction descs with
  | nil => rfl
  | cons kv rest ih =>
      unfold findVulnerabilityDescription
      split_ifs with h <;> simp [h, ih]

-- MARK: Claim C9 — catalog loading can abort the run

/-- A concrete stand-in for the serde JSON parser: accepts only the text
`{}`. -/
def parseFixture (s : String) : Option Json :=
  if s == "\x7b\x7d" then some (.jobj []) else none

/-- A `vulnerabilities` directory whose `index.json` holds unparsable
text. -/
def badDir : DirListing := ⟨true, [⟨"index.json", .ok "not json"⟩]⟩

/-- C9 counterexample: with a directory present whose `index.json` does not
parse, `load_vulnerability_descriptions` returns an error instead of a
catalog, and `analyze` propagates it with `?`, aborting the whole run. -/
theorem c9_bad_catalog_aborts_run :
    loadVulnerabilityDescriptions parseFixture (some badDir) = .error .parseError
      ∧ analyze false parseFixture (fun _ => .error "parse error") (some badDir) []
          = .error .parseError := by
  exact ⟨rfl, rfl⟩

/-- C9 amended: an absent descriptions directory yields an empty catalog and
never fails the run; and whenever loading succeeds, the findings of the run
are independent of the catalog contents (no detection step reads it). -/
theorem c9_catalog_never_alters_findings (hoc : Bool)
    (pj1 pj2 : String → Option Json) (parseSyn : String → Except String ItemList)
    (dir1 dir2 : Option DirListing) (cat1 cat2 : List (String × Json))
    (files : List SrcFile)
    (h1 : loadVulnerabilityDescriptions pj1 dir1 = .ok cat1)
    (h2 : loadVulnerabilityDescriptions pj2 dir2 = .ok cat2) :
    loadVulnerabilityDescriptions pj1 none = .ok []
      ∧ (analyze hoc pj1 parseSyn dir1 files).map Prod.snd
          = (analyze hoc pj2 parseSyn dir2 files).map Prod.snd := by
  refine ⟨rfl, ?_⟩
  unfold analyze
  rw [h1, h2]
  dsimp only
  cases analyzeFiles hoc parseSyn files
      (if hoc = true then addInfo dOverflowChecksOn St.start else St.start) <;> rfl

/-- Witness for C9 with an absent directory versus an empty existing one. -/
theorem c9_catalog_never_alters_findings_witness :
    loadVulnerabilityDescriptions parseFixture none = .ok []
      ∧ (analyze false parseFixture (fun _ => .error "e") none []).map Prod.snd
          = (analyze false parseFixture (fun _ => .error "e")
              (some ⟨true, []⟩) []).map Prod.snd :=
  c9_catalog_never_alters_findings false parseFixture parseFixture
    (fun _ => .error "e") none (some ⟨true, []⟩) [] [] [] rfl rfl

-- MARK: Claim C10 — parse failures are isolated, read failures abort

/-- C10: a source file that reads but fails to parse makes `analyze_file`
append exactly one parse-failure Warning and return without ever invoking
the visitor, and the per-file loop continues with the remaining files;
whereas a file whose read fails makes `analyze_file` propagate the error,
aborting the whole loop with no result. -/
theorem c10_parse_failure_isolated_read_failure_fatal (hoc : Bool)
    (parseSyn : String → Except String ItemList) (content err : String)
    (f g : SrcFile) (st : St) (rest : List SrcFile)
    (hread : f.read = .ok content)
    (hparse : parseSyn content = .error err)
    (hgread : g.read = .error ()) :
    analyzeFile hoc parseSyn f st
        = some (addWarning ("Failed to parse file: " ++ err) st)
      ∧ analyzeFiles hoc parseSyn (f :: rest) st
          = analyzeFiles hoc parseSyn rest
              (addWarning ("Failed to parse file: " ++ err) st)
      ∧ analyzeFile hoc parseSyn g st = none
      ∧ analyzeFiles hoc parseSyn (g :: rest) st = none := by
  have hf : analyzeFile hoc parseSyn f st
      = some (addWarning ("Failed to parse file: " ++ err) st) := by
    unfold analyzeFile
    rw [hread]
    dsimp only
    rw [hparse]
  have hg : analyzeFile hoc parseSyn g st = none := by
    unfold analyzeFile
    rw [hgread]
  refine ⟨hf, ?_, hg, ?_⟩
  · conv_lhs => rw [analyzeFiles]
    rw [hf]
  · conv_lhs => rw [analyzeFiles]
    rw [hg]


/-- Witness for C10 at a concrete unparsable file and a concrete unreadable
file. -/
theorem c10_parse_failure_isolated_witness :
    analyzeFile false (fun _ => .error "bad syntax") ⟨.ok "fn ("⟩ St.start
        = some (addWarning "Failed to parse file: bad syntax" St.start)
      ∧ analyzeFiles false (fun _ => .error "bad syntax") [⟨.error ()⟩] St.start
          = none := by
  have h := c10_parse_failure_isolated_read_failure_fatal false
    (fun _ => .error "bad syntax") "fn (" "bad syntax" ⟨.ok "fn ("⟩ ⟨.error ()⟩
    St.start [] rfl rfl rfl
  exact ⟨h.1, h.2.2.2⟩

end Pluton
